import Mathlib

/-!
Shallow embedding of the xmlsec KeyInfo processor (`src/keyinfo.c`) and proofs
about it.  Pure data (nodes, key-data klass descriptors, the KeyInfo context)
is modelled by Lean structures; the external collaborators that `keyinfo.c`
only calls through an interface (the XML tree library, the key-data registry
lookups, the transform pipeline, the encryption engine, the keys manager and
the per-klass read/write methods reached through `xmlSecKeyDataXmlRead` /
`xmlSecKeyDataXmlWrite` / `xmlSecKeyDataBinRead`) are modelled as explicit
oracle parameters bundled in the `Externals` structure, so every theorem
quantifies over their behavior.  C ints returned as statuses are `Int`
(0 = success, -1 = error); counters are `Nat` (they are only ever decremented
right after an increment).
-/

namespace XmlSec

/-- XML element/non-element node: local name, namespace href
(`xmlSecGetNodeNsHref`, NULL allowed), whether it is an element node,
attributes, text content, and children in document order. -/
inductive Node where
  | mk : String → Option String → Bool → List (String × String) → String → List Node → Node

def Node.name : Node → String
  | .mk n _ _ _ _ _ => n

def Node.ns : Node → Option String
  | .mk _ ns _ _ _ _ => ns

def Node.isElem : Node → Bool
  | .mk _ _ e _ _ _ => e

def Node.attrs : Node → List (String × String)
  | .mk _ _ _ a _ _ => a

def Node.content : Node → String
  | .mk _ _ _ _ c _ => c

def Node.children : Node → List Node
  | .mk _ _ _ _ _ ch => ch

/-- `xmlGetProp`: attribute lookup, NULL when absent. -/
def xmlGetProp (n : Node) (attr : String) : Option String :=
  n.attrs.lookup attr

/-- `xmlSecGetNextElementNode` applied to a sibling list: skips forward to the
first element node; the head of the result is the node the C pointer lands on,
its tail the following siblings, and `[]` stands for NULL. -/
def xmlSecGetNextElementNode (l : List Node) : List Node :=
  l.dropWhile (fun n => !n.isElem)

/-- `xmlSecCheckNodeName`: local name and namespace href must both match. -/
def xmlSecCheckNodeName (n : Node) (name : String) (ns : String) : Bool :=
  n.name == name && n.ns == some ns

/- Names and namespaces from `xmlsec/strings.h`. -/

def xmlSecDSigNs : String := "http://www.w3.org/2000/09/xmldsig#"

def xmlSecDSig11Ns : String := "http://www.w3.org/2009/xmldsig11#"

def xmlSecEncNs : String := "http://www.w3.org/2001/04/xmlenc#"

def xmlSecNodeKeyInfo : String := "KeyInfo"

def xmlSecNodeKeyName : String := "KeyName"

def xmlSecNodeKeyValue : String := "KeyValue"

def xmlSecNodeTransforms : String := "Transforms"

def xmlSecAttrType : String := "Type"

def xmlSecAttrURI : String := "URI"

/- Usage bits from `xmlsec/keysdata.h`. -/

def xmlSecKeyDataUsageKeyInfoNodeRead : Nat := 0x00001

def xmlSecKeyDataUsageKeyInfoNodeWrite : Nat := 0x00002

def xmlSecKeyDataUsageKeyValueNodeRead : Nat := 0x00004

def xmlSecKeyDataUsageKeyValueNodeWrite : Nat := 0x00008

def xmlSecKeyDataUsageRetrievalMethodNodeXml : Nat := 0x00010

def xmlSecKeyDataUsageRetrievalMethodNodeBin : Nat := 0x00020

def xmlSecKeyDataUsageKeyInfoNode : Nat :=
  xmlSecKeyDataUsageKeyInfoNodeRead ||| xmlSecKeyDataUsageKeyInfoNodeWrite

def xmlSecKeyDataUsageKeyValueNode : Nat :=
  xmlSecKeyDataUsageKeyValueNodeRead ||| xmlSecKeyDataUsageKeyValueNodeWrite

def xmlSecKeyDataUsageRetrievalMethodNode : Nat :=
  xmlSecKeyDataUsageRetrievalMethodNodeXml ||| xmlSecKeyDataUsageRetrievalMethodNodeBin

/- Flag bits from `xmlsec/keyinfo.h`. -/

def xmlSecKeyInfoFlagsDontStopOnKeyFound : Nat := 0x00000001

def xmlSecKeyInfoFlagsStopOnUnknownChild : Nat := 0x00000004

def xmlSecKeyInfoFlagsKeyValueStopOnUnknownChild : Nat := 0x00000008

def xmlSecKeyInfoFlagsRetrMethodStopOnUnknownHref : Nat := 0x00000010

def xmlSecKeyInfoFlagsRetrMethodStopOnMismatchHref : Nat := 0x00000020

def xmlSecKeyInfoFlagsEncKeyDontStopOnFailedDecryption : Nat := 0x00000040

/-- Static key-data klass descriptor (the data fields of
`xmlSecKeyDataKlass`; the method pointers are reached through the
`Externals` oracles).  `xmlSecKeyDataId` is `Option KeyDataKlass`, with
`none` standing for `xmlSecKeyDataIdUnknown` (NULL). -/
structure KeyDataKlass where
  name : String
  usage : Nat
  href : Option String
  dataNodeName : String
  dataNodeNs : Option String
deriving DecidableEq, Repr

/-- Modelled from the spec: registry lookup
`find_by_node(local_name, namespace_uri, usage_bit)` of `keysdata.c` (the
registry itself is outside `src/`): first registered klass whose usage bitset
intersects the requested usage and whose data-node name and namespace match
exactly wins. -/
def xmlSecKeyDataIdListFindByNode (list : List KeyDataKlass)
    (nodeName : String) (nodeNs : Option String) (usage : Nat) : Option KeyDataKlass :=
  list.find? (fun d =>
    ((usage &&& d.usage) != 0) && (d.dataNodeName == nodeName) && (d.dataNodeNs == nodeNs))

/-- Modelled from the spec: registry lookup `find_by_href(uri, usage_bit)` of
`keysdata.c`: first registered klass with that href and an intersecting usage
bitset wins (a klass with no href never matches). -/
def xmlSecKeyDataIdListFindByHref (list : List KeyDataKlass)
    (href : String) (usage : Nat) : Option KeyDataKlass :=
  list.find? (fun d =>
    ((usage &&& d.usage) != 0) && (d.href == some href))

/-- The lookup pattern repeated verbatim at every dispatch site of
`keyinfo.c` (lines 110-117, 171-178, 866-872, 1217-1223):
"use global list only if we don't have a local one". -/
def dispatchFindByNode (globalIds enabledKeyData : List KeyDataKlass)
    (nodeName : String) (nodeNs : Option String) (usage : Nat) : Option KeyDataKlass :=
  if enabledKeyData.length > 0 then
    xmlSecKeyDataIdListFindByNode enabledKeyData nodeName nodeNs usage
  else
    xmlSecKeyDataIdListFindByNode globalIds nodeName nodeNs usage

/-- The same pattern for href lookups (`keyinfo.c` lines 1065-1072). -/
def dispatchFindByHref (globalIds enabledKeyData : List KeyDataKlass)
    (href : String) (usage : Nat) : Option KeyDataKlass :=
  if enabledKeyData.length > 0 then
    xmlSecKeyDataIdListFindByHref enabledKeyData href usage
  else
    xmlSecKeyDataIdListFindByHref globalIds href usage

/-- Modelled from the spec: the caller-owned key (`keys.c` is outside
`src/`): at most one value (opaque token), an optional name. -/
structure Key where
  name : Option String
  value : Option Nat
deriving DecidableEq, Repr

/-- Modelled from the spec: `xmlSecKeyIsValid` — the key holds a value. -/
def xmlSecKeyIsValid (k : Key) : Bool :=
  k.value.isSome

/-- Modelled from the spec: `xmlSecKeyEmpty` erases all information. -/
def xmlSecKeyEmpty (_k : Key) : Key :=
  { name := none, value := none }

/-- Modelled from the spec: `xmlSecKeyCopy dst src` replaces `dst`'s
content with a copy of `src`. -/
def xmlSecKeyCopy (_dst src : Key) : Key :=
  src

/-- Modelled from the spec: `xmlSecKeySetName`. -/
def xmlSecKeySetName (k : Key) (n : String) : Key :=
  { k with name := some n }

/-- Modelled from the spec: `xmlSecKeyGetName`. -/
def xmlSecKeyGetName (k : Key) : Option String :=
  k.name

/-- Modelled from the spec: `xmlSecKeyGetValue`. -/
def xmlSecKeyGetValue (k : Key) : Option Nat :=
  k.value

/-- Modelled from the spec: the key requirement — expected handler id
(`keyId`, used by the EncryptedKey handler's `bin_read` call) and the
`matches(key)` predicate used by `xmlSecKeyMatch` / `xmlSecKeyReqMatchKey`. -/
structure KeyReq where
  keyId : Option KeyDataKlass
  matchesKey : Key → Bool

/-- Modelled from the spec: `xmlSecKeyMatch(key, NULL, req)` as called by the
read driver — does the key satisfy the requirement. -/
def xmlSecKeyMatch (k : Key) (req : KeyReq) : Bool :=
  req.matchesKey k

/-- Modelled from the spec: `xmlSecKeyReqMatchKey(req, key)`, 1 on match. -/
def xmlSecKeyReqMatchKey (req : KeyReq) (k : Key) : Bool :=
  req.matchesKey k

/-- Modelled from the spec: the external keys manager, resolving a name to a
key (`xmlSecKeysMngrFindKey`, NULL on miss). -/
structure KeysMngr where
  findKey : String → Option Key

/-- Transform-pipeline sub-context (`xmlSecTransformCtx`, external): the
user preferences copied by `xmlSecTransformCtxCopyUserPref` are abstracted
into an opaque `prefs` token; `uriIsSet`/`uri`, `transformsRead`, `executed`
and `result` record the transient state the KeyInfo code drives through
`reset / set-uri / read-children / execute / get-result`. -/
structure TransformCtx where
  prefs : Nat
  uriIsSet : Bool
  uri : Option String
  transformsRead : Bool
  executed : Bool
  result : Option (List Nat)
deriving DecidableEq, Repr

/-- Modelled from the spec: `xmlSecTransformCtxReset` clears the transient
state and keeps user settings. -/
def xmlSecTransformCtxReset (t : TransformCtx) : TransformCtx :=
  { t with uriIsSet := false, uri := none, transformsRead := false,
           executed := false, result := none }

/-- Modelled from the spec: `xmlSecTransformCtxCopyUserPref dst src` copies
only the user preferences. -/
def xmlSecTransformCtxCopyUserPref (dst src : TransformCtx) : TransformCtx :=
  { dst with prefs := src.prefs }

/-- `xmlEncCtxModeEncryptedKey` (from `xmlsec/xmlenc.h`). -/
def xmlEncCtxModeEncryptedKey : Nat := 1

/-- Modelled from the spec: the encryption engine's context
(`xmlSecEncCtx`, external): its mode and an opaque token for the engine user
preferences copied by `xmlSecEncCtxCopyUserPref`.  Its two inner KeyInfo
sub-contexts belong to the external engine and are not represented. -/
structure EncCtx where
  mode : Nat
  prefs : Nat
deriving DecidableEq, Repr

/-- Modelled from the spec: `xmlSecEncCtxCreate` yields a fresh context. -/
def xmlSecEncCtxCreate : EncCtx :=
  { mode := 0, prefs := 0 }

/-- Modelled from the spec: `xmlSecEncCtxReset` clears engine transient state
(none of which is represented here) and keeps user settings. -/
def xmlSecEncCtxReset (e : EncCtx) : EncCtx :=
  e

/-- Modelled from the spec: `xmlSecEncCtxCopyUserPref dst src` copies the
engine user preferences. -/
def xmlSecEncCtxCopyUserPref (dst src : EncCtx) : EncCtx :=
  { dst with prefs := src.prefs }

inductive KeyInfoMode where
  | read
  | write
deriving DecidableEq, Repr

/-- The KeyInfo processing context (`xmlSecKeyInfoCtx` of
`xmlsec/keyinfo.h`), with the fields `keyinfo.c` uses. -/
structure KeyInfoCtx where
  userData : Nat
  flags : Nat
  flags2 : Nat
  keysMngr : Option KeysMngr
  mode : KeyInfoMode
  enabledKeyData : List KeyDataKlass
  base64LineSize : Nat
  retrievalMethodCtx : TransformCtx
  maxRetrievalMethodLevel : Nat
  encCtx : Option EncCtx
  maxEncryptedKeyLevel : Nat
  certsVerificationTime : Int
  certsVerificationDepth : Nat
  curRetrievalMethodLevel : Nat
  curEncryptedKeyLevel : Nat
  keyReq : KeyReq
  keyInfoReferenceCtx : TransformCtx
  maxKeyInfoReferenceLevel : Nat
  curKeyInfoReferenceLevel : Nat
  operation : Nat

/-- The external collaborators of `keyinfo.c`, as oracles: the global
registry `xmlSecKeyDataIdsGet()`, the per-klass method dispatchers
`xmlSecKeyDataXmlRead` / `xmlSecKeyDataXmlWrite` / `xmlSecKeyDataBinRead`
(each returns a status and the mutated key/node/context), the transform
engine (`setUriOk` — does `xmlSecTransformCtxSetUri` accept this URI;
`readTransformsOk` — does `xmlSecTransformCtxNodesListRead` accept this
`<Transforms>` node; `execute` — the result bytes produced for the URI that
was set, `none` covering failure, a NULL result and a NULL data pointer),
the recover-parser `parseDoc` (`xmlRecoverMemory` + `xmlDocGetRootElement`,
`none` when either fails), and the encryption engine entry points. -/
structure Externals where
  globalIds : List KeyDataKlass
  xmlRead : KeyDataKlass → Key → Node → KeyInfoCtx → Int × Key × KeyInfoCtx
  xmlWrite : KeyDataKlass → Key → Node → KeyInfoCtx → Int × Node × KeyInfoCtx
  binRead : Option KeyDataKlass → Key → List Nat → KeyInfoCtx → Int × Key × KeyInfoCtx
  setUriOk : Option String → Bool
  readTransformsOk : Node → Bool
  execute : Option String → Option (List Nat)
  parseDoc : List Nat → Option Node
  decryptToBuffer : Node → Option (List Nat)
  derivedKeyGenerate : Option KeyDataKlass → Node → Option Key
  agreementMethodGenerate : Option KeyDataKlass → Node → Option Key

/-- The child loop of `xmlSecKeyInfoNodeRead` (`keyinfo.c` lines 99-134),
running over the sibling list of the first child.  Before each element
child is processed the loop condition re-checks
`DONT_STOP_ON_KEY_FOUND set ∨ ¬key valid ∨ ¬key matches req`; when it fails
the loop exits returning 0.  A resolved child is dispatched through
`xmlSecKeyDataXmlRead` (negative status aborts with -1); an unresolved child
is an error iff `STOP_ON_UNKNOWN_CHILD` is set. -/
def xmlSecKeyInfoNodeReadLoop (ext : Externals) :
    List Node → Key → KeyInfoCtx → Int × Key × KeyInfoCtx
  | [], key, ctx => (0, key, ctx)
  | cur :: rest, key, ctx =>
    if cur.isElem = false then
      -- xmlSecGetNextElementNode skips non-element siblings
      xmlSecKeyInfoNodeReadLoop ext rest key ctx
    else if ((ctx.flags &&& xmlSecKeyInfoFlagsDontStopOnKeyFound) != 0)
        || (!xmlSecKeyIsValid key) || (!xmlSecKeyMatch key ctx.keyReq) then
      match dispatchFindByNode ext.globalIds ctx.enabledKeyData
          cur.name cur.ns xmlSecKeyDataUsageKeyInfoNodeRead with
      | some dataId =>
        let out := ext.xmlRead dataId key cur ctx
        if out.1 < 0 then
          (-1, out.2.1, out.2.2)
        else
          xmlSecKeyInfoNodeReadLoop ext rest out.2.1 out.2.2
      | none =>
        if (ctx.flags &&& xmlSecKeyInfoFlagsStopOnUnknownChild) != 0 then
          (-1, key, ctx)
        else
          xmlSecKeyInfoNodeReadLoop ext rest key ctx
    else
      (0, key, ctx)

/-- `xmlSecKeyInfoNodeRead` (`keyinfo.c` lines 86-137): assert read mode,
then run the child loop. -/
def xmlSecKeyInfoNodeRead (ext : Externals) (keyInfoNode : Node) (key : Key)
    (keyInfoCtx : KeyInfoCtx) : Int × Key × KeyInfoCtx :=
  if keyInfoCtx.mode ≠ KeyInfoMode.read then
    (-1, key, keyInfoCtx)
  else
    xmlSecKeyInfoNodeReadLoop ext keyInfoNode.children key keyInfoCtx

/-- The same child loop with the key-found termination test removed: it
dispatches every element child (stopping only on a handler error).  Used to
state that `DONT_STOP_ON_KEY_FOUND` makes the real loop behave this way. -/
def xmlSecKeyInfoNodeReadLoopAll (ext : Externals) :
    List Node → Key → KeyInfoCtx → Int × Key × KeyInfoCtx
  | [], key, ctx => (0, key, ctx)
  | cur :: rest, key, ctx =>
    if cur.isElem = false then
      xmlSecKeyInfoNodeReadLoopAll ext rest key ctx
    else
      match dispatchFindByNode ext.globalIds ctx.enabledKeyData
          cur.name cur.ns xmlSecKeyDataUsageKeyInfoNodeRead with
      | some dataId =>
        let out := ext.xmlRead dataId key cur ctx
        if out.1 < 0 then
          (-1, out.2.1, out.2.2)
        else
          xmlSecKeyInfoNodeReadLoopAll ext rest out.2.1 out.2.2
      | none =>
        if (ctx.flags &&& xmlSecKeyInfoFlagsStopOnUnknownChild) != 0 then
          (-1, key, ctx)
        else
          xmlSecKeyInfoNodeReadLoopAll ext rest key ctx

/-- The child loop of `xmlSecKeyInfoNodeWrite` (`keyinfo.c` lines 162-194):
no early termination; a resolved child is written through
`xmlSecKeyDataXmlWrite` (negative status aborts), an unresolved child is an
error iff `STOP_ON_UNKNOWN_CHILD` is set.  Returns the status, the updated
sibling list and the updated context. -/
def xmlSecKeyInfoNodeWriteLoop (ext : Externals) :
    List Node → Key → KeyInfoCtx → Int × List Node × KeyInfoCtx
  | [], _, ctx => (0, [], ctx)
  | cur :: rest, key, ctx =>
    if cur.isElem = false then
      let out := xmlSecKeyInfoNodeWriteLoop ext rest key ctx
      (out.1, cur :: out.2.1, out.2.2)
    else
      match dispatchFindByNode ext.globalIds ctx.enabledKeyData
          cur.name cur.ns xmlSecKeyDataUsageKeyInfoNodeWrite with
      | some dataId =>
        let out := ext.xmlWrite dataId key cur ctx
        if out.1 < 0 then
          (-1, out.2.1 :: rest, out.2.2)
        else
          let out2 := xmlSecKeyInfoNodeWriteLoop ext rest key out.2.2
          (out2.1, out.2.1 :: out2.2.1, out2.2.2)
      | none =>
        if (ctx.flags &&& xmlSecKeyInfoFlagsStopOnUnknownChild) != 0 then
          (-1, cur :: rest, ctx)
        else
          let out := xmlSecKeyInfoNodeWriteLoop ext rest key ctx
          (out.1, cur :: out.2.1, out.2.2)

/-- `xmlSecKeyInfoNodeWrite` (`keyinfo.c` lines 149-197): assert write mode,
then run the child loop over the template's children. -/
def xmlSecKeyInfoNodeWrite (ext : Externals) (keyInfoNode : Node) (key : Key)
    (keyInfoCtx : KeyInfoCtx) : Int × List Node × KeyInfoCtx :=
  if keyInfoCtx.mode ≠ KeyInfoMode.write then
    (-1, keyInfoNode.children, keyInfoCtx)
  else
    xmlSecKeyInfoNodeWriteLoop ext keyInfoNode.children key keyInfoCtx

/-- `xmlSecKeyInfoCtxCopyUserPref` (`keyinfo.c` lines 426-481): copies
`userData`, `flags`, `flags2`, `keysMngr`, `base64LineSize`, a copy of
`enabledKeyData` (`xmlSecPtrListCopy`, modelled from the spec as a deep
copy), the `maxRetrievalMethodLevel` / `maxKeyInfoReferenceLevel` /
`maxEncryptedKeyLevel` bounds, the user preferences of both transform
sub-contexts, and the certificate-verification settings; when both sides
have an `encCtx` it forces the destination engine mode to encrypted-key and
invokes the engine's own preference copy. -/
def xmlSecKeyInfoCtxCopyUserPref (dst src : KeyInfoCtx) : KeyInfoCtx :=
  let d1 : KeyInfoCtx :=
    { dst with
      userData := src.userData
      flags := src.flags
      flags2 := src.flags2
      keysMngr := src.keysMngr
      base64LineSize := src.base64LineSize
      enabledKeyData := src.enabledKeyData
      maxRetrievalMethodLevel := src.maxRetrievalMethodLevel
      retrievalMethodCtx :=
        xmlSecTransformCtxCopyUserPref dst.retrievalMethodCtx src.retrievalMethodCtx
      maxKeyInfoReferenceLevel := src.maxKeyInfoReferenceLevel
      keyInfoReferenceCtx :=
        xmlSecTransformCtxCopyUserPref dst.keyInfoReferenceCtx src.keyInfoReferenceCtx }
  let d2 : KeyInfoCtx :=
    match src.encCtx, d1.encCtx with
    | some srcEnc, some dstEnc =>
      { d1 with encCtx := some (xmlSecEncCtxCopyUserPref
          { dstEnc with mode := xmlEncCtxModeEncryptedKey } srcEnc) }
    | _, _ => d1
  { d2 with
    maxEncryptedKeyLevel := src.maxEncryptedKeyLevel
    certsVerificationTime := src.certsVerificationTime
    certsVerificationDepth := src.certsVerificationDepth }

/-- `xmlSecKeyInfoCtxCreateEncCtx` (`keyinfo.c` lines 369-415): create a
fresh encryption context in encrypted-key mode and store it; the preference
copies into its inner read/write KeyInfo sub-contexts and the `operation`
propagation act on state owned by the external engine, which this model does
not represent. -/
def xmlSecKeyInfoCtxCreateEncCtx (ctx : KeyInfoCtx) : KeyInfoCtx :=
  { ctx with encCtx := some { xmlSecEncCtxCreate with mode := xmlEncCtxModeEncryptedKey } }

/-- The shared "init Enc context" step of the EncryptedKey / DerivedKey /
AgreementMethod handlers (`keyinfo.c` lines 1584-1593 and twins): reset the
existing context, or create one. -/
def keyInfoCtxEnsureEncCtx (ctx : KeyInfoCtx) : KeyInfoCtx :=
  match ctx.encCtx with
  | some e => { ctx with encCtx := some (xmlSecEncCtxReset e) }
  | none => xmlSecKeyInfoCtxCreateEncCtx ctx

/-- Leading- and trailing-whitespace trim, spelled over the character list
so that it evaluates inside the kernel. -/
def stringTrim (s : String) : String :=
  String.mk (((s.data.dropWhile (fun c => c.isWhitespace)).reverse.dropWhile
    (fun c => c.isWhitespace)).reverse)

/-- Modelled from the spec: `xmlSecGetNodeContentAndTrim` (`xmltree.c`,
outside `src/`) — the node's text content with surrounding whitespace
trimmed, NULL when nothing remains. -/
def xmlSecGetNodeContentAndTrim (n : Node) : Option String :=
  let t := stringTrim n.content
  if t = "" then none else some t

/-- Modelled from the spec: `xmlSecIsEmptyNode` (`xmltree.c`, outside
`src/`) — no element children and no text content. -/
def xmlSecIsEmptyNode (n : Node) : Bool :=
  (xmlSecGetNextElementNode n.children).isEmpty && stringTrim n.content == ""

/-- Modelled from the spec: `xmlSecNodeEncodeAndSetContent` (`xmltree.c`,
outside `src/`) — serialize the string as the node's text content (the XML
escaping itself is not observable at this level). -/
def xmlSecNodeEncodeAndSetContent (n : Node) (s : String) : Node :=
  .mk n.name n.ns n.isElem n.attrs s n.children

/-- `xmlSecKeyDataNameXmlRead` (`keyinfo.c` lines 662-742): read the trimmed
`<KeyName>` text (empty is an error).  If the key has no value and a keys
manager is present, look the name up: on a hit empty the key, copy the found
key in and set the name; on a miss fall through silently.  Otherwise an
existing different name is an error, an equal one a no-op, and a missing one
is set.  Returns the status and the updated key (the context is not
modified). -/
def xmlSecKeyDataNameXmlRead (key : Key) (node : Node) (keyInfoCtx : KeyInfoCtx) :
    Int × Key :=
  if keyInfoCtx.mode ≠ KeyInfoMode.read then
    (-1, key)
  else
    match xmlSecGetNodeContentAndTrim node with
    | none => (-1, key)
    | some newName =>
      if (xmlSecKeyGetValue key).isNone && keyInfoCtx.keysMngr.isSome then
        match keyInfoCtx.keysMngr with
        | some mngr =>
          match mngr.findKey newName with
          | some tmpKey =>
            let key := xmlSecKeyEmpty key
            let key := xmlSecKeyCopy key tmpKey
            (0, xmlSecKeySetName key newName)
          | none => (0, key)
        | none => (0, key)
      else
        match xmlSecKeyGetName key with
        | some oldName =>
          if oldName ≠ newName then (-1, key) else (0, key)
        | none => (0, xmlSecKeySetName key newName)

/-- `xmlSecKeyDataNameXmlWrite` (`keyinfo.c` lines 744-772): return the
literal 8 when the key has no name; leave a non-empty template node alone;
otherwise serialize the name into the node. -/
def xmlSecKeyDataNameXmlWrite (key : Key) (node : Node) (keyInfoCtx : KeyInfoCtx) :
    Int × Node :=
  if keyInfoCtx.mode ≠ KeyInfoMode.write then
    (-1, node)
  else
    match xmlSecKeyGetName key with
    | none => (8, node)
    | some name =>
      if !xmlSecIsEmptyNode node then
        (0, node)
      else
        (0, xmlSecNodeEncodeAndSetContent node name)

/-- `xmlSecKeyDataValueXmlRead` (`keyinfo.c` lines 841-897): an empty
`<KeyValue>` is a successful no-op; one element child is dispatched with
usage KeyValue-read (unknown child ignored unless
`KEYVALUE_STOP_ON_UNKNOWN_CHILD`); any further element child is an error. -/
def xmlSecKeyDataValueXmlRead (ext : Externals) (key : Key) (node : Node)
    (keyInfoCtx : KeyInfoCtx) : Int × Key × KeyInfoCtx :=
  if keyInfoCtx.mode ≠ KeyInfoMode.read then
    (-1, key, keyInfoCtx)
  else
    match xmlSecGetNextElementNode node.children with
    | [] => (0, key, keyInfoCtx)
    | cur :: rest =>
      match dispatchFindByNode ext.globalIds keyInfoCtx.enabledKeyData
          cur.name cur.ns xmlSecKeyDataUsageKeyValueNodeRead with
      | some dataId =>
        let out := ext.xmlRead dataId key cur keyInfoCtx
        if out.1 < 0 then
          (-1, out.2.1, out.2.2)
        else if (xmlSecGetNextElementNode rest).isEmpty then
          (0, out.2.1, out.2.2)
        else
          (-1, out.2.1, out.2.2)
      | none =>
        if (keyInfoCtx.flags &&& xmlSecKeyInfoFlagsKeyValueStopOnUnknownChild) != 0 then
          (-1, key, keyInfoCtx)
        else if (xmlSecGetNextElementNode rest).isEmpty then
          (0, key, keyInfoCtx)
        else
          (-1, key, keyInfoCtx)

/-- The expected-type resolution of `xmlSecKeyDataRetrievalMethodXmlRead`
(`keyinfo.c` lines 1063-1073): resolve the `Type` attribute through the
href lookup with usage RetrievalMethod; absent attribute or no match leaves
it Unknown. -/
def retrievalMethodExpectedDataId (ext : Externals) (node : Node)
    (ctx : KeyInfoCtx) : Option KeyDataKlass :=
  match xmlGetProp node xmlSecAttrType with
  | some retrType =>
    dispatchFindByHref ext.globalIds ctx.enabledKeyData retrType
      xmlSecKeyDataUsageRetrievalMethodNode
  | none => none

/-- `xmlSecKeyDataRetrievalMethodReadXmlResult` (`keyinfo.c` lines
1181-1256): recover-parse the fetched octets, resolve the root element with
usage RetrievalMethod-XML-result; unknown root is ignored or errored per
`KEYVALUE_STOP_ON_UNKNOWN_CHILD`; a known root differing from a known
declared type errors iff `RETRMETHOD_STOP_ON_MISMATCH_HREF`; otherwise the
resolved handler's `xml_read` runs on the root. -/
def xmlSecKeyDataRetrievalMethodReadXmlResult (ext : Externals)
    (typeId : Option KeyDataKlass) (key : Key) (buffer : List Nat)
    (keyInfoCtx : KeyInfoCtx) : Int × Key × KeyInfoCtx :=
  match ext.parseDoc buffer with
  | none => (-1, key, keyInfoCtx)
  | some root =>
    match dispatchFindByNode ext.globalIds keyInfoCtx.enabledKeyData
        root.name root.ns xmlSecKeyDataUsageRetrievalMethodNodeXml with
    | none =>
      if (keyInfoCtx.flags &&& xmlSecKeyInfoFlagsKeyValueStopOnUnknownChild) != 0 then
        (-1, key, keyInfoCtx)
      else
        (0, key, keyInfoCtx)
    | some dataId =>
      if typeId.isSome && (typeId ≠ some dataId) &&
          ((keyInfoCtx.flags &&& xmlSecKeyInfoFlagsRetrMethodStopOnMismatchHref) != 0) then
        (-1, key, keyInfoCtx)
      else
        let out := ext.xmlRead dataId key root keyInfoCtx
        if out.1 < 0 then
          (-1, out.2.1, out.2.2)
        else
          (0, out.2.1, out.2.2)

/-- The tail of `xmlSecKeyDataRetrievalMethodXmlRead` after the optional
`<Transforms>` child has been consumed (`keyinfo.c` lines 1115-1158): any
further element child is an error; execute the transform pipeline against
the owning document (a failure, NULL result or NULL data — `none` here — is
an error); dispatch the result as XML when the expected klass carries the
RetrievalMethod-XML-result usage and as binary otherwise; decrement the
retrieval level only on that successful exit. -/
def retrievalMethodXmlReadTail (ext : Externals) (dataId : KeyDataKlass) (key : Key)
    (uri : Option String) (remaining : List Node) (ctx : KeyInfoCtx) :
    Int × Key × KeyInfoCtx :=
  if !remaining.isEmpty then
    (-1, key, ctx)
  else
    let execResult := ext.execute uri
    let ctx := { ctx with retrievalMethodCtx :=
      { ctx.retrievalMethodCtx with executed := true, result := execResult } }
    match execResult with
    | none => (-1, key, ctx)
    | some buffer =>
      let isXml :=
        (dataId.usage &&& xmlSecKeyDataUsageRetrievalMethodNodeXml) != 0
      let out :=
        if isXml then
          xmlSecKeyDataRetrievalMethodReadXmlResult ext (some dataId) key buffer ctx
        else
          ext.binRead (some dataId) key buffer ctx
      if out.1 < 0 then
        (-1, out.2.1, out.2.2)
      else
        (0, out.2.1, { out.2.2 with
          curRetrievalMethodLevel := out.2.2.curRetrievalMethodLevel - 1 })

/-- `xmlSecKeyDataRetrievalMethodXmlRead` (`keyinfo.c` lines 1039-1167):
fail when `curRetrievalMethodLevel ≥ maxRetrievalMethodLevel`, else
increment the level; resolve the declared `Type` (unknown: fail iff
`RETRMETHOD_STOP_ON_UNKNOWN_HREF`, otherwise return success immediately);
reset the retrieval transform context, set the URI, read an optional
`<Transforms>` child (no other child allowed), execute the pipeline
(missing/NULL result is an error) and dispatch on the result as XML or
binary; decrement the level only on that successful exit. -/
def xmlSecKeyDataRetrievalMethodXmlRead (ext : Externals) (key : Key)
    (node : Node) (keyInfoCtx : KeyInfoCtx) : Int × Key × KeyInfoCtx :=
  if keyInfoCtx.mode ≠ KeyInfoMode.read then
    (-1, key, keyInfoCtx)
  else if keyInfoCtx.curRetrievalMethodLevel ≥ keyInfoCtx.maxRetrievalMethodLevel then
    (-1, key, keyInfoCtx)
  else
    let ctx := { keyInfoCtx with
      curRetrievalMethodLevel := keyInfoCtx.curRetrievalMethodLevel + 1 }
    match retrievalMethodExpectedDataId ext node ctx with
    | none =>
      if (ctx.flags &&& xmlSecKeyInfoFlagsRetrMethodStopOnUnknownHref) != 0 then
        (-1, key, ctx)
      else
        (0, key, ctx)
    | some dataId =>
      let ctx := { ctx with
        retrievalMethodCtx := xmlSecTransformCtxReset ctx.retrievalMethodCtx }
      let uri := xmlGetProp node xmlSecAttrURI
      if !ext.setUriOk uri then
        (-1, key, ctx)
      else
        let ctx := { ctx with
          retrievalMethodCtx := { ctx.retrievalMethodCtx with uriIsSet := true, uri := uri } }
        match xmlSecGetNextElementNode node.children with
        | cur :: rest =>
          if xmlSecCheckNodeName cur xmlSecNodeTransforms xmlSecDSigNs then
            if ext.readTransformsOk cur then
              retrievalMethodXmlReadTail ext dataId key uri (xmlSecGetNextElementNode rest)
                { ctx with retrievalMethodCtx :=
                  { ctx.retrievalMethodCtx with transformsRead := true } }
            else
              (-1, key, ctx)
          else
            retrievalMethodXmlReadTail ext dataId key uri (cur :: rest) ctx
        | [] =>
          retrievalMethodXmlReadTail ext dataId key uri [] ctx

/-- `xmlSecKeyDataKeyInfoReferenceReadXmlResult` (`keyinfo.c` lines
1438-1486): recover-parse the fetched octets; the root must be a
`<dsig:KeyInfo>` element; on it run `xmlSecKeyInfoNodeRead` recursively. -/
def xmlSecKeyDataKeyInfoReferenceReadXmlResult (ext : Externals) (key : Key)
    (buffer : List Nat) (keyInfoCtx : KeyInfoCtx) : Int × Key × KeyInfoCtx :=
  match ext.parseDoc buffer with
  | none => (-1, key, keyInfoCtx)
  | some root =>
    if !xmlSecCheckNodeName root xmlSecNodeKeyInfo xmlSecDSigNs then
      (-1, key, keyInfoCtx)
    else
      let out := xmlSecKeyInfoNodeRead ext root key keyInfoCtx
      if out.1 < 0 then
        (-1, out.2.1, out.2.2)
      else
        (0, out.2.1, out.2.2)

/-- `xmlSecKeyDataKeyInfoReferenceXmlRead` (`keyinfo.c` lines 1347-1424):
fail when `curKeyInfoReferenceLevel ≥ maxKeyInfoReferenceLevel`, else
increment; the `URI` attribute is mandatory; reset the reference transform
context and set the URI; no element children are allowed; execute the
pipeline (missing/NULL result is an error); the result must parse to a
`<KeyInfo>` root, which is read recursively; decrement the level only on
that successful exit. -/
def xmlSecKeyDataKeyInfoReferenceXmlRead (ext : Externals) (key : Key)
    (node : Node) (keyInfoCtx : KeyInfoCtx) : Int × Key × KeyInfoCtx :=
  if keyInfoCtx.mode ≠ KeyInfoMode.read then
    (-1, key, keyInfoCtx)
  else if keyInfoCtx.curKeyInfoReferenceLevel ≥ keyInfoCtx.maxKeyInfoReferenceLevel then
    (-1, key, keyInfoCtx)
  else
    let ctx := { keyInfoCtx with
      curKeyInfoReferenceLevel := keyInfoCtx.curKeyInfoReferenceLevel + 1 }
    match xmlGetProp node xmlSecAttrURI with
    | none => (-1, key, ctx)
    | some uri =>
      let ctx := { ctx with
        keyInfoReferenceCtx := xmlSecTransformCtxReset ctx.keyInfoReferenceCtx }
      if !ext.setUriOk (some uri) then
        (-1, key, ctx)
      else
        let ctx := { ctx with keyInfoReferenceCtx :=
          { ctx.keyInfoReferenceCtx with uriIsSet := true, uri := some uri } }
        if !(xmlSecGetNextElementNode node.children).isEmpty then
          (-1, key, ctx)
        else
          let execResult := ext.execute (some uri)
          let ctx := { ctx with keyInfoReferenceCtx :=
            { ctx.keyInfoReferenceCtx with executed := true, result := execResult } }
          match execResult with
          | none => (-1, key, ctx)
          | some buffer =>
            let out := xmlSecKeyDataKeyInfoReferenceReadXmlResult ext key buffer ctx
            if out.1 < 0 then
              (-1, out.2.1, out.2.2)
            else
              (0, out.2.1, { out.2.2 with
                curKeyInfoReferenceLevel := out.2.2.curKeyInfoReferenceLevel - 1 })

/-- `xmlSecKeyDataEncryptedKeyXmlRead` (`keyinfo.c` lines 1566-1635): fail
when `curEncryptedKeyLevel ≥ maxEncryptedKeyLevel`; reset or create the
encryption context and copy user preferences into its inner sub-contexts
(engine-owned, not represented); bracket the engine's decrypt-to-buffer call
with an increment and an immediate decrement of the level; a missing or
NULL-data result propagates as an error iff
`ENCKEY_DONT_STOP_ON_FAILED_DECRYPTION` is set, and is otherwise swallowed
as success without touching the key; on plaintext, run `bin_read` of the
requirement's `keyId` klass. -/
def xmlSecKeyDataEncryptedKeyXmlRead (ext : Externals) (key : Key)
    (node : Node) (keyInfoCtx : KeyInfoCtx) : Int × Key × KeyInfoCtx :=
  if keyInfoCtx.mode ≠ KeyInfoMode.read then
    (-1, key, keyInfoCtx)
  else if keyInfoCtx.curEncryptedKeyLevel ≥ keyInfoCtx.maxEncryptedKeyLevel then
    (-1, key, keyInfoCtx)
  else
    let ctx := keyInfoCtxEnsureEncCtx keyInfoCtx
    let ctx1 := { ctx with curEncryptedKeyLevel := ctx.curEncryptedKeyLevel + 1 }
    let result := ext.decryptToBuffer node
    let ctx2 := { ctx1 with curEncryptedKeyLevel := ctx1.curEncryptedKeyLevel - 1 }
    match result with
    | none =>
      if (ctx2.flags &&& xmlSecKeyInfoFlagsEncKeyDontStopOnFailedDecryption) != 0 then
        (-1, key, ctx2)
      else
        (0, key, ctx2)
    | some buffer =>
      let out := ext.binRead ctx2.keyReq.keyId key buffer ctx2
      if out.1 < 0 then
        (-1, out.2.1, out.2.2)
      else
        (0, out.2.1, out.2.2)

/-- `xmlSecKeyDataDerivedKeyXmlRead` (`keyinfo.c` lines 1795-1874): same
level check and encryption-context setup as EncryptedKey; bracket the
engine's derived-key generation with an increment/decrement of the level; a
NULL generated key follows the same swallow-vs-propagate flag rule; a
generated key that does not match the requirement is discarded with success;
otherwise it is copied into the caller's key. -/
def xmlSecKeyDataDerivedKeyXmlRead (ext : Externals) (key : Key)
    (node : Node) (keyInfoCtx : KeyInfoCtx) : Int × Key × KeyInfoCtx :=
  if keyInfoCtx.mode ≠ KeyInfoMode.read then
    (-1, key, keyInfoCtx)
  else if keyInfoCtx.curEncryptedKeyLevel ≥ keyInfoCtx.maxEncryptedKeyLevel then
    (-1, key, keyInfoCtx)
  else
    let ctx := keyInfoCtxEnsureEncCtx keyInfoCtx
    let ctx1 := { ctx with curEncryptedKeyLevel := ctx.curEncryptedKeyLevel + 1 }
    let generated := ext.derivedKeyGenerate ctx1.keyReq.keyId node
    let ctx2 := { ctx1 with curEncryptedKeyLevel := ctx1.curEncryptedKeyLevel - 1 }
    match generated with
    | none =>
      if (ctx2.flags &&& xmlSecKeyInfoFlagsEncKeyDontStopOnFailedDecryption) != 0 then
        (-1, key, ctx2)
      else
        (0, key, ctx2)
    | some generatedKey =>
      if xmlSecKeyReqMatchKey ctx2.keyReq generatedKey ≠ true then
        (0, key, ctx2)
      else
        (0, xmlSecKeyCopy key generatedKey, ctx2)

/-- `xmlSecKeyDataAgreementMethodXmlRead` (`keyinfo.c` lines 1964-2038):
identical shape to DerivedKey with the engine's agreement-method
generation. -/
def xmlSecKeyDataAgreementMethodXmlRead (ext : Externals) (key : Key)
    (node : Node) (keyInfoCtx : KeyInfoCtx) : Int × Key × KeyInfoCtx :=
  if keyInfoCtx.mode ≠ KeyInfoMode.read then
    (-1, key, keyInfoCtx)
  else if keyInfoCtx.curEncryptedKeyLevel ≥ keyInfoCtx.maxEncryptedKeyLevel then
    (-1, key, keyInfoCtx)
  else
    let ctx := keyInfoCtxEnsureEncCtx keyInfoCtx
    let ctx1 := { ctx with curEncryptedKeyLevel := ctx.curEncryptedKeyLevel + 1 }
    let generated := ext.agreementMethodGenerate ctx1.keyReq.keyId node
    let ctx2 := { ctx1 with curEncryptedKeyLevel := ctx1.curEncryptedKeyLevel - 1 }
    match generated with
    | none =>
      if (ctx2.flags &&& xmlSecKeyInfoFlagsEncKeyDontStopOnFailedDecryption) != 0 then
        (-1, key, ctx2)
      else
        (0, key, ctx2)
    | some generatedKey =>
      if xmlSecKeyReqMatchKey ctx2.keyReq generatedKey ≠ true then
        (0, key, ctx2)
      else
        (0, xmlSecKeyCopy key generatedKey, ctx2)

/-- The `<dsig:KeyName>` klass descriptor (`keyinfo.c` lines 604-639). -/
def xmlSecKeyDataNameKlass : KeyDataKlass :=
  { name := "key-name"
    usage := xmlSecKeyDataUsageKeyInfoNode ||| xmlSecKeyDataUsageRetrievalMethodNodeXml
    href := none
    dataNodeName := xmlSecNodeKeyName
    dataNodeNs := some xmlSecDSigNs }

/-- Shared helper: a sibling list with no element nodes is skipped whole by
the read loop. -/
theorem readLoop_all_nonelem (ext : Externals) :
    ∀ (l : List Node) (key : Key) (ctx : KeyInfoCtx),
      (∀ cur ∈ l, cur.isElem = false) →
      xmlSecKeyInfoNodeReadLoop ext l key ctx = (0, key, ctx) := by
  intro l
  induction l with
  | nil => intro key ctx _; rfl
  | cons cur rest ih =>
    intro key ctx h
    have hcur : cur.isElem = false := h cur (List.mem_cons_self cur rest)
    unfold xmlSecKeyInfoNodeReadLoop
    simp only [hcur, if_pos rfl]
    exact ih key ctx (fun x hx => h x (List.mem_cons_of_mem cur hx))

/-- Shared helper: with `STOP_ON_UNKNOWN_CHILD` clear, a sibling list whose
element nodes all fail the dispatch lookup is processed to a successful
no-op by the read loop. -/
theorem readLoop_all_unknown (ext : Externals) :
    ∀ (l : List Node) (key : Key) (ctx : KeyInfoCtx),
      (ctx.flags &&& xmlSecKeyInfoFlagsStopOnUnknownChild = 0) →
      (∀ cur ∈ l, cur.isElem = true →
        dispatchFindByNode ext.globalIds ctx.enabledKeyData cur.name cur.ns
          xmlSecKeyDataUsageKeyInfoNodeRead = none) →
      xmlSecKeyInfoNodeReadLoop ext l key ctx = (0, key, ctx) := by
  intro l
  induction l with
  | nil => intro key ctx _ _; rfl
  | cons cur rest ih =>
    intro key ctx hflag h
    have ihr := ih key ctx hflag (fun x hx hex => h x (List.mem_cons_of_mem cur hx) hex)
    unfold xmlSecKeyInfoNodeReadLoop
    by_cases he : cur.isElem = false
    · simpa [he] using ihr
    · have he' : cur.isElem = true := by
        revert he; cases cur.isElem <;> simp
      have hlook := h cur (List.mem_cons_self cur rest) he'
      simp [he', hlook, hflag, ihr]

/-- C1: in read mode, before each element child is processed the loop of
`xmlSecKeyInfoNodeRead` re-checks its condition: with
`DONT_STOP_ON_KEY_FOUND` clear, a valid key matching the requirement makes
the loop (and the driver) return 0 immediately, dispatching nothing and
leaving key and context untouched; with the flag set (and no handler
clearing it), the loop coincides with the variant that has the key-found
test removed, i.e. iteration continues over all element children regardless
of the key's state. -/
theorem keyInfoNodeRead_stop_on_key_found (ext : Externals) :
    (∀ (siblings : List Node) (key : Key) (ctx : KeyInfoCtx),
      (ctx.flags &&& xmlSecKeyInfoFlagsDontStopOnKeyFound = 0) →
      xmlSecKeyIsValid key = true →
      xmlSecKeyMatch key ctx.keyReq = true →
      xmlSecKeyInfoNodeReadLoop ext siblings key ctx = (0, key, ctx))
    ∧ (∀ (node : Node) (key : Key) (ctx : KeyInfoCtx),
      ctx.mode = KeyInfoMode.read →
      (ctx.flags &&& xmlSecKeyInfoFlagsDontStopOnKeyFound = 0) →
      xmlSecKeyIsValid key = true →
      xmlSecKeyMatch key ctx.keyReq = true →
      xmlSecKeyInfoNodeRead ext node key ctx = (0, key, ctx))
    ∧ ((∀ (d : KeyDataKlass) (k : Key) (n : Node) (c : KeyInfoCtx),
        (c.flags &&& xmlSecKeyInfoFlagsDontStopOnKeyFound ≠ 0) →
        (((ext.xmlRead d k n c).2.2).flags &&& xmlSecKeyInfoFlagsDontStopOnKeyFound ≠ 0)) →
      ∀ (siblings : List Node) (key : Key) (ctx : KeyInfoCtx),
      (ctx.flags &&& xmlSecKeyInfoFlagsDontStopOnKeyFound ≠ 0) →
      xmlSecKeyInfoNodeReadLoop ext siblings key ctx =
        xmlSecKeyInfoNodeReadLoopAll ext siblings key ctx) := by
  have hstop : ∀ (siblings : List Node) (key : Key) (ctx : KeyInfoCtx),
      (ctx.flags &&& xmlSecKeyInfoFlagsDontStopOnKeyFound = 0) →
      xmlSecKeyIsValid key = true →
      xmlSecKeyMatch key ctx.keyReq = true →
      xmlSecKeyInfoNodeReadLoop ext siblings key ctx = (0, key, ctx) := by
    intro siblings
    induction siblings with
    | nil => intro key ctx _ _ _; rfl
    | cons cur rest ih =>
      intro key ctx h1 h2 h3
      unfold xmlSecKeyInfoNodeReadLoop
      by_cases he : cur.isElem = false
      · simp only [he, if_pos rfl]
        exact ih key ctx h1 h2 h3
      · simp only [he, if_neg, h1, h2, h3]
        simp
  refine ⟨hstop, ?_, ?_⟩
  · intro node key ctx hm h1 h2 h3
    unfold xmlSecKeyInfoNodeRead
    simp only [hm]
    simp only [ne_eq, not_true_eq_false, if_false]
    exact hstop node.children key ctx h1 h2 h3
  · intro hO siblings
    induction siblings with
    | nil => intro key ctx _; rfl
    | cons cur rest ih =>
      intro key ctx hflag
      unfold xmlSecKeyInfoNodeReadLoop xmlSecKeyInfoNodeReadLoopAll
      by_cases he : cur.isElem = false
      · simp only [he, if_pos rfl]
        exact ih key ctx hflag
      · have hcond : ((ctx.flags &&& xmlSecKeyInfoFlagsDontStopOnKeyFound) != 0) = true := by
          simpa [bne_iff_ne] using hflag
        simp only [he, hcond, Bool.true_or, if_true]
        cases hd : dispatchFindByNode ext.globalIds ctx.enabledKeyData
            cur.name cur.ns xmlSecKeyDataUsageKeyInfoNodeRead with
        | none =>
          by_cases hs : ((ctx.flags &&& xmlSecKeyInfoFlagsStopOnUnknownChild) != 0) = true
          · simp [hs]
          · simp only [Bool.not_eq_true] at hs
            simp only [hs, Bool.false_eq_true, if_false]
            exact ih key ctx hflag
        | some dataId =>
          simp only []
          by_cases hr : (ext.xmlRead dataId key cur ctx).1 < 0
          · simp [hr]
          · simp only [if_neg hr]
            exact ih (ext.xmlRead dataId key cur ctx).2.1
              (ext.xmlRead dataId key cur ctx).2.2
              (hO dataId key cur ctx hflag)

/-- C10: in read mode, a `<KeyInfo>` node with no element children — and,
with `STOP_ON_UNKNOWN_CHILD` clear, one all of whose element children fail
to resolve to a handler — makes `xmlSecKeyInfoNodeRead` return 0 with the
caller's key and context unchanged: success of the read pass does not mean
a key was found. -/
theorem keyInfoNodeRead_success_without_key (ext : Externals) :
    (∀ (node : Node) (key : Key) (ctx : KeyInfoCtx),
      ctx.mode = KeyInfoMode.read →
      (∀ cur ∈ node.children, cur.isElem = false) →
      xmlSecKeyInfoNodeRead ext node key ctx = (0, key, ctx))
    ∧ (∀ (node : Node) (key : Key) (ctx : KeyInfoCtx),
      ctx.mode = KeyInfoMode.read →
      (ctx.flags &&& xmlSecKeyInfoFlagsStopOnUnknownChild = 0) →
      (∀ cur ∈ node.children, cur.isElem = true →
        dispatchFindByNode ext.globalIds ctx.enabledKeyData cur.name cur.ns
          xmlSecKeyDataUsageKeyInfoNodeRead = none) →
      xmlSecKeyInfoNodeRead ext node key ctx = (0, key, ctx)) := by
  constructor
  · intro node key ctx hm h
    unfold xmlSecKeyInfoNodeRead
    simp only [hm, ne_eq, not_true_eq_false, if_false]
    exact readLoop_all_nonelem ext node.children key ctx h
  · intro node key ctx hm hflag h
    unfold xmlSecKeyInfoNodeRead
    simp only [hm, ne_eq, not_true_eq_false, if_false]
    exact readLoop_all_unknown ext node.children key ctx hflag h

/-- C4: at every dispatch site the repeated lookup pattern consults the
context's `enabledKeyData` alone when it is non-empty — a klass resolvable
only in the global registry then stays Unknown — and the global registry
alone when it is empty; the two lists are never merged, for the by-node and
the by-href lookup alike. -/
theorem enabledKeyData_authoritative :
    (∀ (g enabled : List KeyDataKlass) (n : String) (ns : Option String) (u : Nat),
      enabled ≠ [] →
      dispatchFindByNode g enabled n ns u = xmlSecKeyDataIdListFindByNode enabled n ns u)
    ∧ (∀ (g enabled : List KeyDataKlass) (n : String) (ns : Option String) (u : Nat),
      enabled ≠ [] →
      xmlSecKeyDataIdListFindByNode enabled n ns u = none →
      dispatchFindByNode g enabled n ns u = none)
    ∧ (∀ (g : List KeyDataKlass) (n : String) (ns : Option String) (u : Nat),
      dispatchFindByNode g [] n ns u = xmlSecKeyDataIdListFindByNode g n ns u)
    ∧ (∀ (g enabled : List KeyDataKlass) (h : String) (u : Nat),
      enabled ≠ [] →
      dispatchFindByHref g enabled h u = xmlSecKeyDataIdListFindByHref enabled h u)
    ∧ (∀ (g : List KeyDataKlass) (h : String) (u : Nat),
      dispatchFindByHref g [] h u = xmlSecKeyDataIdListFindByHref g h u) := by
  have hlen : ∀ (enabled : List KeyDataKlass), enabled ≠ [] → enabled.length > 0 := by
    intro enabled h
    exact List.length_pos.mpr h
  refine ⟨?_, ?_, ?_, ?_, ?_⟩
  · intro g enabled n ns u h
    unfold dispatchFindByNode
    simp [hlen enabled h]
  · intro g enabled n ns u h hnone
    unfold dispatchFindByNode
    simp [hlen enabled h, hnone]
  · intro g n ns u
    unfold dispatchFindByNode
    simp
  · intro g enabled h u hne
    unfold dispatchFindByHref
    simp [hlen enabled hne]
  · intro g h u
    unfold dispatchFindByHref
    simp

/- Concrete fixtures used by the witness and counterexample theorems. -/

/-- A sample registered klass reachable only through the global registry. -/
def sampleKlassG : KeyDataKlass :=
  { name := "g"
    usage := 0xFFFF
    href := some "http://example.org/g"
    dataNodeName := "GData"
    dataNodeNs := some xmlSecDSigNs }

/-- A sample klass standing for an allow-listed handler. -/
def sampleKlassH : KeyDataKlass :=
  { name := "h"
    usage := 0xFFFF
    href := some "http://example.org/h"
    dataNodeName := "HData"
    dataNodeNs := some xmlSecDSigNs }

/-- A non-element (text) node. -/
def sampleTextNode : Node := .mk "text" none false [] "hello" []

/-- An element child no registry resolves. -/
def sampleUnknownNode : Node := .mk "Mystery" (some xmlSecDSigNs) true [] "" []

/-- An element child resolved by `sampleKlassG`. -/
def sampleGNode : Node := .mk "GData" (some xmlSecDSigNs) true [] "" []

/-- A `<KeyInfo>` with only a text child. -/
def sampleKeyInfoTextOnly : Node :=
  .mk xmlSecNodeKeyInfo (some xmlSecDSigNs) true [] "" [sampleTextNode]

/-- A `<KeyInfo>` whose only element child is unknown. -/
def sampleKeyInfoUnknownChild : Node :=
  .mk xmlSecNodeKeyInfo (some xmlSecDSigNs) true [] "" [sampleUnknownNode, sampleTextNode]

/-- A valid key (it has a value). -/
def sampleValidKey : Key := { name := none, value := some 5 }

/-- A fresh, empty key. -/
def sampleEmptyKey : Key := { name := none, value := none }

/-- A pristine transform sub-context. -/
def sampleTransformCtx : TransformCtx :=
  { prefs := 0, uriIsSet := false, uri := none, transformsRead := false,
    executed := false, result := none }

/-- A read-mode context with defaults mirroring `xmlSecKeyInfoCtxInitialize`
(all flags clear, empty allow-list, level bounds 1, counters 0) and a
requirement satisfied by any key holding a value. -/
def sampleReadCtx : KeyInfoCtx :=
  { userData := 0
    flags := 0
    flags2 := 0
    keysMngr := none
    mode := KeyInfoMode.read
    enabledKeyData := []
    base64LineSize := 64
    retrievalMethodCtx := sampleTransformCtx
    maxRetrievalMethodLevel := 1
    encCtx := none
    maxEncryptedKeyLevel := 1
    certsVerificationTime := 0
    certsVerificationDepth := 9
    curRetrievalMethodLevel := 0
    curEncryptedKeyLevel := 0
    keyReq := { keyId := none, matchesKey := fun k => k.value.isSome }
    keyInfoReferenceCtx := sampleTransformCtx
    maxKeyInfoReferenceLevel := 1
    curKeyInfoReferenceLevel := 0
    operation := 0 }

/-- The read context with `DONT_STOP_ON_KEY_FOUND` set. -/
def sampleDontStopCtx : KeyInfoCtx :=
  { sampleReadCtx with flags := xmlSecKeyInfoFlagsDontStopOnKeyFound }

/-- Benign external collaborators: handlers succeed without touching
anything, the pipeline accepts URIs and produces one byte, parsing fails,
decryption and key generation fail. -/
def sampleExt : Externals :=
  { globalIds := [sampleKlassG]
    xmlRead := fun _ k _ c => (0, k, c)
    xmlWrite := fun _ _ n c => (0, n, c)
    binRead := fun _ k _ c => (0, k, c)
    setUriOk := fun _ => true
    readTransformsOk := fun _ => true
    execute := fun _ => some [1]
    parseDoc := fun _ => none
    decryptToBuffer := fun _ => none
    derivedKeyGenerate := fun _ _ => none
    agreementMethodGenerate := fun _ _ => none }

/-- Witness for C1 at concrete inputs: a valid matching key stops the loop
and the driver with all flags clear, and with `DONT_STOP_ON_KEY_FOUND` set
the loop equals its check-free variant. -/
theorem keyInfoNodeRead_stop_on_key_found_witness :
    xmlSecKeyInfoNodeReadLoop sampleExt [sampleGNode] sampleValidKey sampleReadCtx
      = (0, sampleValidKey, sampleReadCtx)
    ∧ xmlSecKeyInfoNodeRead sampleExt sampleKeyInfoUnknownChild sampleValidKey sampleReadCtx
      = (0, sampleValidKey, sampleReadCtx)
    ∧ xmlSecKeyInfoNodeReadLoop sampleExt [sampleGNode] sampleValidKey sampleDontStopCtx
      = xmlSecKeyInfoNodeReadLoopAll sampleExt [sampleGNode] sampleValidKey sampleDontStopCtx :=
  ⟨(keyInfoNodeRead_stop_on_key_found sampleExt).1 [sampleGNode] sampleValidKey sampleReadCtx
      rfl rfl rfl,
   (keyInfoNodeRead_stop_on_key_found sampleExt).2.1 sampleKeyInfoUnknownChild sampleValidKey
      sampleReadCtx rfl rfl rfl rfl,
   (keyInfoNodeRead_stop_on_key_found sampleExt).2.2 (fun _ _ _ _ h => h)
      [sampleGNode] sampleValidKey sampleDontStopCtx (by decide)⟩

/-- Witness for C10 at concrete inputs: a `<KeyInfo>` with only a text
child, and one with a single unknown element child under a clear
`STOP_ON_UNKNOWN_CHILD`, both read to success with the key untouched. -/
theorem keyInfoNodeRead_success_without_key_witness :
    xmlSecKeyInfoNodeRead sampleExt sampleKeyInfoTextOnly sampleEmptyKey sampleReadCtx
      = (0, sampleEmptyKey, sampleReadCtx)
    ∧ xmlSecKeyInfoNodeRead sampleExt sampleKeyInfoUnknownChild sampleEmptyKey sampleReadCtx
      = (0, sampleEmptyKey, sampleReadCtx) :=
  ⟨(keyInfoNodeRead_success_without_key sampleExt).1 sampleKeyInfoTextOnly sampleEmptyKey
      sampleReadCtx rfl
      (by
        intro cur hc
        rcases List.mem_singleton.mp hc with rfl
        rfl),
   (keyInfoNodeRead_success_without_key sampleExt).2 sampleKeyInfoUnknownChild sampleEmptyKey
      sampleReadCtx rfl rfl
      (by
        intro cur hc
        rcases List.mem_cons.mp hc with rfl | hc
        · intro _; rfl
        · rcases List.mem_singleton.mp hc with rfl
          intro h; exact absurd h (by decide))⟩

/-- Witness for C4 at concrete inputs: with allow-list `[H]` the by-node and
by-href lookups consult only the allow-list (so the klass G, resolvable only
globally, stays Unknown), and with an empty allow-list only the registry. -/
theorem enabledKeyData_authoritative_witness :
    dispatchFindByNode [sampleKlassG] [sampleKlassH] "GData" (some xmlSecDSigNs) 0xFFFF
      = xmlSecKeyDataIdListFindByNode [sampleKlassH] "GData" (some xmlSecDSigNs) 0xFFFF
    ∧ dispatchFindByNode [sampleKlassG] [sampleKlassH] "GData" (some xmlSecDSigNs) 0xFFFF
      = none
    ∧ dispatchFindByNode [sampleKlassG] [] "GData" (some xmlSecDSigNs) 0xFFFF
      = xmlSecKeyDataIdListFindByNode [sampleKlassG] "GData" (some xmlSecDSigNs) 0xFFFF
    ∧ dispatchFindByHref [sampleKlassG] [sampleKlassH] "http://example.org/g" 0xFFFF
      = xmlSecKeyDataIdListFindByHref [sampleKlassH] "http://example.org/g" 0xFFFF
    ∧ dispatchFindByHref [sampleKlassG] [] "http://example.org/g" 0xFFFF
      = xmlSecKeyDataIdListFindByHref [sampleKlassG] "http://example.org/g" 0xFFFF :=
  ⟨enabledKeyData_authoritative.1 [sampleKlassG] [sampleKlassH] "GData" (some xmlSecDSigNs)
      0xFFFF (by simp),
   enabledKeyData_authoritative.2.1 [sampleKlassG] [sampleKlassH] "GData" (some xmlSecDSigNs)
      0xFFFF (by simp) (by decide),
   enabledKeyData_authoritative.2.2.1 [sampleKlassG] "GData" (some xmlSecDSigNs) 0xFFFF,
   enabledKeyData_authoritative.2.2.2.1 [sampleKlassG] [sampleKlassH] "http://example.org/g"
      0xFFFF (by simp),
   enabledKeyData_authoritative.2.2.2.2 [sampleKlassG] "http://example.org/g" 0xFFFF⟩

/-- A keys manager that misses every name. -/
def sampleMissMngr : KeysMngr := { findKey := fun _ => none }

/-- The read context equipped with the missing keys manager. -/
def sampleMngrCtx : KeyInfoCtx := { sampleReadCtx with keysMngr := some sampleMissMngr }

/-- A `<KeyName>` node with padded text content. -/
def sampleKeyNameNode : Node :=
  .mk xmlSecNodeKeyName (some xmlSecDSigNs) true [] " alice " []

/-- Counterexample to C6 as stated: a key with no value and no name, read
against a `<KeyName>alice</KeyName>` in a context whose keys manager misses,
returns success with the key's name still unset — the name-matching and
name-setting logic of lines 716-736 runs only when the manager-lookup branch
is not taken, so "if the key has no name, the handler sets the new name" is
false for this input. -/
theorem keyDataNameXmlRead_counterexample :
    xmlSecGetNodeContentAndTrim sampleKeyNameNode = some "alice"
    ∧ sampleEmptyKey.name = none
    ∧ xmlSecKeyDataNameXmlRead sampleEmptyKey sampleKeyNameNode sampleMngrCtx
        = (0, sampleEmptyKey)
    ∧ (xmlSecKeyDataNameXmlRead sampleEmptyKey sampleKeyNameNode sampleMngrCtx).2.name
        = none := by
  refine ⟨rfl, rfl, rfl, rfl⟩

/-- C6 amended: in read mode, when the manager-lookup branch is not taken —
the key already has a value, or the context has no keys manager — a
`<KeyName>` with non-empty trimmed text behaves as claimed: an existing
equal name is a successful no-op, an existing different name fails with
invalid-key-data, and a missing name is set to the new one. -/
theorem keyDataNameXmlRead_name_check (key : Key) (node : Node) (ctx : KeyInfoCtx)
    (newName : String)
    (hm : ctx.mode = KeyInfoMode.read)
    (hbr : (xmlSecKeyGetValue key).isSome = true ∨ ctx.keysMngr = none)
    (hc : xmlSecGetNodeContentAndTrim node = some newName) :
    (∀ oldName, xmlSecKeyGetName key = some oldName →
      (oldName = newName → xmlSecKeyDataNameXmlRead key node ctx = (0, key))
      ∧ (oldName ≠ newName → xmlSecKeyDataNameXmlRead key node ctx = (-1, key)))
    ∧ (xmlSecKeyGetName key = none →
      xmlSecKeyDataNameXmlRead key node ctx = (0, xmlSecKeySetName key newName)) := by
  have hcond : ((xmlSecKeyGetValue key).isNone && ctx.keysMngr.isSome) = false := by
    rcases hbr with h | h
    · simp [Option.isNone_iff_eq_none, Option.isSome_iff_exists] at h ⊢
      rcases h with ⟨v, hv⟩
      intro hnone
      rw [hnone] at hv
      exact absurd hv (by simp)
    · simp [h]
  constructor
  · intro oldName hold
    constructor
    · intro hcmp
      unfold xmlSecKeyDataNameXmlRead
      simp [hm, hc, hcond, hold, hcmp]
    · intro hcmp
      unfold xmlSecKeyDataNameXmlRead
      simp [hm, hc, hcond, hold, hcmp]
  · intro hnone
    unfold xmlSecKeyDataNameXmlRead
    simp [hm, hc, hcond, hnone]

/-- A key that already has a value and the name "alice". -/
def sampleNamedKey : Key := { name := some "alice", value := some 3 }

/-- Witness for the amended C6 at concrete inputs: with no keys manager, an
equal existing name is a no-op and a missing name is set. -/
theorem keyDataNameXmlRead_name_check_witness :
    xmlSecKeyDataNameXmlRead sampleNamedKey sampleKeyNameNode sampleReadCtx
      = (0, sampleNamedKey)
    ∧ xmlSecKeyDataNameXmlRead sampleValidKey sampleKeyNameNode sampleReadCtx
      = (0, xmlSecKeySetName sampleValidKey "alice") :=
  ⟨((keyDataNameXmlRead_name_check sampleNamedKey sampleKeyNameNode sampleReadCtx "alice"
      rfl (Or.inr rfl) rfl).1 "alice" rfl).1 rfl,
   (keyDataNameXmlRead_name_check sampleValidKey sampleKeyNameNode sampleReadCtx "alice"
      rfl (Or.inl rfl) rfl).2 rfl⟩

/-- C7: in read mode `xmlSecKeyDataValueXmlRead` treats an empty
`<KeyValue>` as a successful no-op; a single element child is dispatched
when resolved (the handler outcome deciding the status) and, when
unresolved, ignored or errored according to
`KEYVALUE_STOP_ON_UNKNOWN_CHILD`; and any second element child forces an
error no matter the flags, the lookup outcome or the handler outcome. -/
theorem keyDataValueXmlRead_children (ext : Externals) (key : Key) (node : Node)
    (ctx : KeyInfoCtx) (hm : ctx.mode = KeyInfoMode.read) :
    (xmlSecGetNextElementNode node.children = [] →
      xmlSecKeyDataValueXmlRead ext key node ctx = (0, key, ctx))
    ∧ (∀ cur rest, xmlSecGetNextElementNode node.children = cur :: rest →
      xmlSecGetNextElementNode rest = [] →
      (∀ dataId, dispatchFindByNode ext.globalIds ctx.enabledKeyData cur.name cur.ns
          xmlSecKeyDataUsageKeyValueNodeRead = some dataId →
        xmlSecKeyDataValueXmlRead ext key node ctx =
          (if (ext.xmlRead dataId key cur ctx).1 < 0 then
            (-1, (ext.xmlRead dataId key cur ctx).2.1, (ext.xmlRead dataId key cur ctx).2.2)
          else
            (0, (ext.xmlRead dataId key cur ctx).2.1, (ext.xmlRead dataId key cur ctx).2.2)))
      ∧ (dispatchFindByNode ext.globalIds ctx.enabledKeyData cur.name cur.ns
          xmlSecKeyDataUsageKeyValueNodeRead = none →
        ((ctx.flags &&& xmlSecKeyInfoFlagsKeyValueStopOnUnknownChild ≠ 0) →
          xmlSecKeyDataValueXmlRead ext key node ctx = (-1, key, ctx))
        ∧ ((ctx.flags &&& xmlSecKeyInfoFlagsKeyValueStopOnUnknownChild = 0) →
          xmlSecKeyDataValueXmlRead ext key node ctx = (0, key, ctx))))
    ∧ (∀ cur rest, xmlSecGetNextElementNode node.children = cur :: rest →
      xmlSecGetNextElementNode rest ≠ [] →
      (xmlSecKeyDataValueXmlRead ext key node ctx).1 = -1) := by
  refine ⟨?_, ?_, ?_⟩
  · intro h
    unfold xmlSecKeyDataValueXmlRead
    simp [hm, h]
  · intro cur rest hcr hrest
    constructor
    · intro dataId hd
      unfold xmlSecKeyDataValueXmlRead
      simp only [hm, ne_eq, not_true_eq_false, if_false, hcr, hd]
      by_cases hr : (ext.xmlRead dataId key cur ctx).1 < 0
      · simp [hr]
      · simp [hr, hrest]
    · intro hd
      constructor
      · intro hflag
        unfold xmlSecKeyDataValueXmlRead
        have hflag' : ((ctx.flags &&& xmlSecKeyInfoFlagsKeyValueStopOnUnknownChild) != 0)
            = true := by simpa [bne_iff_ne] using hflag
        simp [hm, hcr, hd, hflag']
      · intro hflag
        unfold xmlSecKeyDataValueXmlRead
        simp [hm, hcr, hd, hflag, hrest]
  · intro cur rest hcr hrest
    unfold xmlSecKeyDataValueXmlRead
    have hne : (xmlSecGetNextElementNode rest).isEmpty = false := by
      cases h : xmlSecGetNextElementNode rest with
      | nil => exact absurd h hrest
      | cons a l => rfl
    simp only [hm, ne_eq, not_true_eq_false, if_false, hcr]
    cases hd : dispatchFindByNode ext.globalIds ctx.enabledKeyData cur.name cur.ns
        xmlSecKeyDataUsageKeyValueNodeRead with
    | none =>
      by_cases hflag : ((ctx.flags &&& xmlSecKeyInfoFlagsKeyValueStopOnUnknownChild) != 0)
          = true
      · simp [hflag]
      · simp only [Bool.not_eq_true] at hflag
        simp [hflag, hne]
    | some dataId =>
      by_cases hr : (ext.xmlRead dataId key cur ctx).1 < 0
      · simp [hr]
      · simp [hr, hne]

/-- An empty `<KeyValue>` (text child only). -/
def sampleKeyValueEmpty : Node :=
  .mk xmlSecNodeKeyValue (some xmlSecDSigNs) true [] "" [sampleTextNode]

/-- A `<KeyValue>` with one resolvable element child. -/
def sampleKeyValueOne : Node :=
  .mk xmlSecNodeKeyValue (some xmlSecDSigNs) true [] "" [sampleGNode]

/-- A `<KeyValue>` with two element children. -/
def sampleKeyValueTwo : Node :=
  .mk xmlSecNodeKeyValue (some xmlSecDSigNs) true [] "" [sampleGNode, sampleUnknownNode]

/-- Witness for C7 at concrete inputs: empty node is a no-op, a single
resolved child succeeds through the (succeeding) handler, and a second
element child errors. -/
theorem keyDataValueXmlRead_children_witness :
    xmlSecKeyDataValueXmlRead sampleExt sampleEmptyKey sampleKeyValueEmpty sampleReadCtx
      = (0, sampleEmptyKey, sampleReadCtx)
    ∧ xmlSecKeyDataValueXmlRead sampleExt sampleEmptyKey sampleKeyValueOne sampleReadCtx
      = (0, sampleEmptyKey, sampleReadCtx)
    ∧ (xmlSecKeyDataValueXmlRead sampleExt sampleEmptyKey sampleKeyValueTwo sampleReadCtx).1
      = -1 := by
  refine ⟨?_, ?_, ?_⟩
  · exact (keyDataValueXmlRead_children sampleExt sampleEmptyKey sampleKeyValueEmpty
      sampleReadCtx rfl).1 rfl
  · have h := ((keyDataValueXmlRead_children sampleExt sampleEmptyKey sampleKeyValueOne
      sampleReadCtx rfl).2.1 sampleGNode [] rfl rfl).1 sampleKlassG rfl
    simpa using h
  · exact (keyDataValueXmlRead_children sampleExt sampleEmptyKey sampleKeyValueTwo
      sampleReadCtx rfl).2.2 sampleGNode [sampleUnknownNode] rfl
      (by intro h; exact List.noConfusion h)

/-- C8: `xmlSecKeyInfoCtxCopyUserPref` copies exactly the configuration —
`userData`, `flags`, `flags2`, `keysMngr`, `base64LineSize`, the
`enabledKeyData` copy, the three `max*Level` bounds, the user preferences of
both transform sub-contexts and the certificate-verification settings — and
leaves the destination's transient state (the three `cur*Level` counters,
the transform sub-contexts' URIs/results/execution marks, `operation`,
`keyReq`, and also `mode`) unchanged. -/
theorem keyInfoCtxCopyUserPref_config_only (dst src : KeyInfoCtx) :
    (xmlSecKeyInfoCtxCopyUserPref dst src).userData = src.userData
    ∧ (xmlSecKeyInfoCtxCopyUserPref dst src).flags = src.flags
    ∧ (xmlSecKeyInfoCtxCopyUserPref dst src).flags2 = src.flags2
    ∧ (xmlSecKeyInfoCtxCopyUserPref dst src).keysMngr = src.keysMngr
    ∧ (xmlSecKeyInfoCtxCopyUserPref dst src).base64LineSize = src.base64LineSize
    ∧ (xmlSecKeyInfoCtxCopyUserPref dst src).enabledKeyData = src.enabledKeyData
    ∧ (xmlSecKeyInfoCtxCopyUserPref dst src).maxRetrievalMethodLevel
        = src.maxRetrievalMethodLevel
    ∧ (xmlSecKeyInfoCtxCopyUserPref dst src).maxKeyInfoReferenceLevel
        = src.maxKeyInfoReferenceLevel
    ∧ (xmlSecKeyInfoCtxCopyUserPref dst src).maxEncryptedKeyLevel
        = src.maxEncryptedKeyLevel
    ∧ (xmlSecKeyInfoCtxCopyUserPref dst src).retrievalMethodCtx.prefs
        = src.retrievalMethodCtx.prefs
    ∧ (xmlSecKeyInfoCtxCopyUserPref dst src).keyInfoReferenceCtx.prefs
        = src.keyInfoReferenceCtx.prefs
    ∧ (xmlSecKeyInfoCtxCopyUserPref dst src).certsVerificationTime
        = src.certsVerificationTime
    ∧ (xmlSecKeyInfoCtxCopyUserPref dst src).certsVerificationDepth
        = src.certsVerificationDepth
    ∧ (xmlSecKeyInfoCtxCopyUserPref dst src).curRetrievalMethodLevel
        = dst.curRetrievalMethodLevel
    ∧ (xmlSecKeyInfoCtxCopyUserPref dst src).curKeyInfoReferenceLevel
        = dst.curKeyInfoReferenceLevel
    ∧ (xmlSecKeyInfoCtxCopyUserPref dst src).curEncryptedKeyLevel
        = dst.curEncryptedKeyLevel
    ∧ (xmlSecKeyInfoCtxCopyUserPref dst src).retrievalMethodCtx.uriIsSet
        = dst.retrievalMethodCtx.uriIsSet
    ∧ (xmlSecKeyInfoCtxCopyUserPref dst src).retrievalMethodCtx.uri
        = dst.retrievalMethodCtx.uri
    ∧ (xmlSecKeyInfoCtxCopyUserPref dst src).retrievalMethodCtx.transformsRead
        = dst.retrievalMethodCtx.transformsRead
    ∧ (xmlSecKeyInfoCtxCopyUserPref dst src).retrievalMethodCtx.executed
        = dst.retrievalMethodCtx.executed
    ∧ (xmlSecKeyInfoCtxCopyUserPref dst src).retrievalMethodCtx.result
        = dst.retrievalMethodCtx.result
    ∧ (xmlSecKeyInfoCtxCopyUserPref dst src).keyInfoReferenceCtx.uriIsSet
        = dst.keyInfoReferenceCtx.uriIsSet
    ∧ (xmlSecKeyInfoCtxCopyUserPref dst src).keyInfoReferenceCtx.uri
        = dst.keyInfoReferenceCtx.uri
    ∧ (xmlSecKeyInfoCtxCopyUserPref dst src).keyInfoReferenceCtx.transformsRead
        = dst.keyInfoReferenceCtx.transformsRead
    ∧ (xmlSecKeyInfoCtxCopyUserPref dst src).keyInfoReferenceCtx.executed
        = dst.keyInfoReferenceCtx.executed
    ∧ (xmlSecKeyInfoCtxCopyUserPref dst src).keyInfoReferenceCtx.result
        = dst.keyInfoReferenceCtx.result
    ∧ (xmlSecKeyInfoCtxCopyUserPref dst src).operation = dst.operation
    ∧ (xmlSecKeyInfoCtxCopyUserPref dst src).keyReq = dst.keyReq
    ∧ (xmlSecKeyInfoCtxCopyUserPref dst src).mode = dst.mode := by
  cases hs : src.encCtx <;> cases hd : dst.encCtx <;>
    simp [xmlSecKeyInfoCtxCopyUserPref, hs, hd, xmlSecTransformCtxCopyUserPref,
      xmlSecEncCtxCopyUserPref]

/-- C9: `xmlSecKeyDataNameXmlWrite` returns the literal 8 with the node
untouched when the key has no name, and — the write driver treating only
negative handler statuses as errors — the write loop then carries on with
the remaining children, the `<KeyName>` child unchanged and the pass status
that of the rest. -/
theorem keyDataNameXmlWrite_no_name (ext : Externals) :
    (∀ (key : Key) (node : Node) (ctx : KeyInfoCtx),
      ctx.mode = KeyInfoMode.write →
      xmlSecKeyGetName key = none →
      xmlSecKeyDataNameXmlWrite key node ctx = (8, node))
    ∧ (∀ (key : Key) (ctx : KeyInfoCtx) (cur : Node) (rest : List Node),
      ctx.mode = KeyInfoMode.write →
      xmlSecKeyGetName key = none →
      cur.isElem = true →
      dispatchFindByNode ext.globalIds ctx.enabledKeyData cur.name cur.ns
        xmlSecKeyDataUsageKeyInfoNodeWrite = some xmlSecKeyDataNameKlass →
      ext.xmlWrite xmlSecKeyDataNameKlass =
        (fun k n c => ((xmlSecKeyDataNameXmlWrite k n c).1,
          (xmlSecKeyDataNameXmlWrite k n c).2, c)) →
      xmlSecKeyInfoNodeWriteLoop ext (cur :: rest) key ctx =
        ((xmlSecKeyInfoNodeWriteLoop ext rest key ctx).1,
         cur :: (xmlSecKeyInfoNodeWriteLoop ext rest key ctx).2.1,
         (xmlSecKeyInfoNodeWriteLoop ext rest key ctx).2.2)) := by
  have hwrite : ∀ (key : Key) (node : Node) (ctx : KeyInfoCtx),
      ctx.mode = KeyInfoMode.write →
      xmlSecKeyGetName key = none →
      xmlSecKeyDataNameXmlWrite key node ctx = (8, node) := by
    intro key node ctx hm hname
    unfold xmlSecKeyDataNameXmlWrite
    simp [hm, hname]
  refine ⟨hwrite, ?_⟩
  intro key ctx cur rest hm hname helem hdisp hW
  conv_lhs => rw [xmlSecKeyInfoNodeWriteLoop]
  simp only [helem, Bool.true_eq_false, if_false, hdisp, hW,
    hwrite key cur ctx hm hname]
  norm_num

/-- An empty `<KeyName>` template child. -/
def sampleKeyNameElem : Node := .mk xmlSecNodeKeyName (some xmlSecDSigNs) true [] "" []

/-- A write-mode variant of the sample context. -/
def sampleWriteCtx : KeyInfoCtx := { sampleReadCtx with mode := KeyInfoMode.write }

/-- Externals whose registry holds the KeyName klass and whose write
dispatcher runs the embedded KeyName write method. -/
def sampleWriteExt : Externals :=
  { sampleExt with
    globalIds := [xmlSecKeyDataNameKlass]
    xmlWrite := fun _ k n c =>
      ((xmlSecKeyDataNameXmlWrite k n c).1, (xmlSecKeyDataNameXmlWrite k n c).2, c) }

/-- Witness for C9 at concrete inputs: a nameless key makes KeyName write
return 8 with the node untouched, and the write loop over a lone
`<KeyName>` child completes as if over no children. -/
theorem keyDataNameXmlWrite_no_name_witness :
    xmlSecKeyDataNameXmlWrite sampleEmptyKey sampleKeyNameElem sampleWriteCtx
      = (8, sampleKeyNameElem)
    ∧ xmlSecKeyInfoNodeWriteLoop sampleWriteExt [sampleKeyNameElem] sampleEmptyKey
        sampleWriteCtx =
      ((xmlSecKeyInfoNodeWriteLoop sampleWriteExt [] sampleEmptyKey sampleWriteCtx).1,
       sampleKeyNameElem ::
         (xmlSecKeyInfoNodeWriteLoop sampleWriteExt [] sampleEmptyKey sampleWriteCtx).2.1,
       (xmlSecKeyInfoNodeWriteLoop sampleWriteExt [] sampleEmptyKey sampleWriteCtx).2.2) :=
  ⟨(keyDataNameXmlWrite_no_name sampleWriteExt).1 sampleEmptyKey sampleKeyNameElem
      sampleWriteCtx rfl rfl,
   (keyDataNameXmlWrite_no_name sampleWriteExt).2 sampleEmptyKey sampleWriteCtx
      sampleKeyNameElem [] rfl rfl rfl rfl rfl⟩

/-- C5: in read mode and under the level bound, when decryption (resp. key
generation) fails or yields no data, the EncryptedKey (resp. DerivedKey,
AgreementMethod) handler fails iff `ENCKEY_DONT_STOP_ON_FAILED_DECRYPTION`
is set and otherwise returns success with the caller's key untouched, so
the driver can go on to try sibling elements. -/
theorem encFamily_failed_decryption (ext : Externals) (key : Key) (node : Node)
    (ctx : KeyInfoCtx) (hm : ctx.mode = KeyInfoMode.read)
    (hlevel : ctx.curEncryptedKeyLevel < ctx.maxEncryptedKeyLevel) :
    (ext.decryptToBuffer node = none →
      ((ctx.flags &&& xmlSecKeyInfoFlagsEncKeyDontStopOnFailedDecryption ≠ 0) →
        (xmlSecKeyDataEncryptedKeyXmlRead ext key node ctx).1 = -1
        ∧ (xmlSecKeyDataEncryptedKeyXmlRead ext key node ctx).2.1 = key)
      ∧ ((ctx.flags &&& xmlSecKeyInfoFlagsEncKeyDontStopOnFailedDecryption = 0) →
        (xmlSecKeyDataEncryptedKeyXmlRead ext key node ctx).1 = 0
        ∧ (xmlSecKeyDataEncryptedKeyXmlRead ext key node ctx).2.1 = key))
    ∧ (ext.derivedKeyGenerate ctx.keyReq.keyId node = none →
      ((ctx.flags &&& xmlSecKeyInfoFlagsEncKeyDontStopOnFailedDecryption ≠ 0) →
        (xmlSecKeyDataDerivedKeyXmlRead ext key node ctx).1 = -1
        ∧ (xmlSecKeyDataDerivedKeyXmlRead ext key node ctx).2.1 = key)
      ∧ ((ctx.flags &&& xmlSecKeyInfoFlagsEncKeyDontStopOnFailedDecryption = 0) →
        (xmlSecKeyDataDerivedKeyXmlRead ext key node ctx).1 = 0
        ∧ (xmlSecKeyDataDerivedKeyXmlRead ext key node ctx).2.1 = key))
    ∧ (ext.agreementMethodGenerate ctx.keyReq.keyId node = none →
      ((ctx.flags &&& xmlSecKeyInfoFlagsEncKeyDontStopOnFailedDecryption ≠ 0) →
        (xmlSecKeyDataAgreementMethodXmlRead ext key node ctx).1 = -1
        ∧ (xmlSecKeyDataAgreementMethodXmlRead ext key node ctx).2.1 = key)
      ∧ ((ctx.flags &&& xmlSecKeyInfoFlagsEncKeyDontStopOnFailedDecryption = 0) →
        (xmlSecKeyDataAgreementMethodXmlRead ext key node ctx).1 = 0
        ∧ (xmlSecKeyDataAgreementMethodXmlRead ext key node ctx).2.1 = key)) := by
  have hge : ¬ (ctx.curEncryptedKeyLevel ≥ ctx.maxEncryptedKeyLevel) := not_le.mpr hlevel
  refine ⟨?_, ?_, ?_⟩
  · intro hfail
    constructor
    · intro hflag
      have hflag' : ((ctx.flags &&& xmlSecKeyInfoFlagsEncKeyDontStopOnFailedDecryption) != 0)
          = true := by simpa [bne_iff_ne] using hflag
      unfold xmlSecKeyDataEncryptedKeyXmlRead
      cases he : ctx.encCtx <;>
        simp [hm, hge, keyInfoCtxEnsureEncCtx, xmlSecKeyInfoCtxCreateEncCtx, he, hfail, hflag']
    · intro hflag
      unfold xmlSecKeyDataEncryptedKeyXmlRead
      cases he : ctx.encCtx <;>
        simp [hm, hge, keyInfoCtxEnsureEncCtx, xmlSecKeyInfoCtxCreateEncCtx, he, hfail, hflag]
  · intro hfail
    constructor
    · intro hflag
      have hflag' : ((ctx.flags &&& xmlSecKeyInfoFlagsEncKeyDontStopOnFailedDecryption) != 0)
          = true := by simpa [bne_iff_ne] using hflag
      unfold xmlSecKeyDataDerivedKeyXmlRead
      cases he : ctx.encCtx <;>
        simp [hm, hge, keyInfoCtxEnsureEncCtx, xmlSecKeyInfoCtxCreateEncCtx, he, hfail, hflag']
    · intro hflag
      unfold xmlSecKeyDataDerivedKeyXmlRead
      cases he : ctx.encCtx <;>
        simp [hm, hge, keyInfoCtxEnsureEncCtx, xmlSecKeyInfoCtxCreateEncCtx, he, hfail, hflag]
  · intro hfail
    constructor
    · intro hflag
      have hflag' : ((ctx.flags &&& xmlSecKeyInfoFlagsEncKeyDontStopOnFailedDecryption) != 0)
          = true := by simpa [bne_iff_ne] using hflag
      unfold xmlSecKeyDataAgreementMethodXmlRead
      cases he : ctx.encCtx <;>
        simp [hm, hge, keyInfoCtxEnsureEncCtx, xmlSecKeyInfoCtxCreateEncCtx, he, hfail, hflag']
    · intro hflag
      unfold xmlSecKeyDataAgreementMethodXmlRead
      cases he : ctx.encCtx <;>
        simp [hm, hge, keyInfoCtxEnsureEncCtx, xmlSecKeyInfoCtxCreateEncCtx, he, hfail, hflag]

/-- An `<enc:EncryptedKey>` element node. -/
def sampleEncKeyNode : Node := .mk "EncryptedKey" (some xmlSecEncNs) true [] "" []

/-- The read context with `ENCKEY_DONT_STOP_ON_FAILED_DECRYPTION` set. -/
def sampleEncStopCtx : KeyInfoCtx :=
  { sampleReadCtx with flags := xmlSecKeyInfoFlagsEncKeyDontStopOnFailedDecryption }

/-- Witness for C5 at concrete inputs: with failing decryption/generation,
the flag-set context errors and the flag-clear context swallows the failure,
the key untouched in both. -/
theorem encFamily_failed_decryption_witness :
    ((xmlSecKeyDataEncryptedKeyXmlRead sampleExt sampleEmptyKey sampleEncKeyNode
        sampleEncStopCtx).1 = -1
      ∧ (xmlSecKeyDataEncryptedKeyXmlRead sampleExt sampleEmptyKey sampleEncKeyNode
        sampleEncStopCtx).2.1 = sampleEmptyKey)
    ∧ ((xmlSecKeyDataEncryptedKeyXmlRead sampleExt sampleEmptyKey sampleEncKeyNode
        sampleReadCtx).1 = 0
      ∧ (xmlSecKeyDataEncryptedKeyXmlRead sampleExt sampleEmptyKey sampleEncKeyNode
        sampleReadCtx).2.1 = sampleEmptyKey)
    ∧ ((xmlSecKeyDataDerivedKeyXmlRead sampleExt sampleEmptyKey sampleEncKeyNode
        sampleReadCtx).1 = 0
      ∧ (xmlSecKeyDataDerivedKeyXmlRead sampleExt sampleEmptyKey sampleEncKeyNode
        sampleReadCtx).2.1 = sampleEmptyKey)
    ∧ ((xmlSecKeyDataAgreementMethodXmlRead sampleExt sampleEmptyKey sampleEncKeyNode
        sampleReadCtx).1 = 0
      ∧ (xmlSecKeyDataAgreementMethodXmlRead sampleExt sampleEmptyKey sampleEncKeyNode
        sampleReadCtx).2.1 = sampleEmptyKey) :=
  ⟨((encFamily_failed_decryption sampleExt sampleEmptyKey sampleEncKeyNode sampleEncStopCtx
      rfl (by decide)).1 rfl).1 (by decide),
   ((encFamily_failed_decryption sampleExt sampleEmptyKey sampleEncKeyNode sampleReadCtx
      rfl (by decide)).1 rfl).2 rfl,
   ((encFamily_failed_decryption sampleExt sampleEmptyKey sampleEncKeyNode sampleReadCtx
      rfl (by decide)).2.1 rfl).2 rfl,
   ((encFamily_failed_decryption sampleExt sampleEmptyKey sampleEncKeyNode sampleReadCtx
      rfl (by decide)).2.2 rfl).2 rfl⟩

/-- A `<RetrievalMethod URI="#x">` with no `Type` attribute. -/
def sampleRetrMethodNode : Node :=
  .mk "RetrievalMethod" (some xmlSecDSigNs) true [(xmlSecAttrURI, "#x")] "" []

/-- Counterexample to C3 as stated: with the `Type` attribute absent and
`RETRMETHOD_STOP_ON_UNKNOWN_HREF` clear, the handler returns success
immediately — the URI is never set, the transform pipeline is never
executed (so no non-empty result is required and nothing is dispatched),
and the recursion counter stays incremented; the claimed
mark-as-Unknown-and-continue processing does not happen. -/
theorem retrievalMethod_unknown_type_counterexample :
    xmlGetProp sampleRetrMethodNode xmlSecAttrType = none
    ∧ (sampleReadCtx.flags &&& xmlSecKeyInfoFlagsRetrMethodStopOnUnknownHref = 0)
    ∧ (xmlSecKeyDataRetrievalMethodXmlRead sampleExt sampleEmptyKey sampleRetrMethodNode
        sampleReadCtx).1 = 0
    ∧ ((xmlSecKeyDataRetrievalMethodXmlRead sampleExt sampleEmptyKey sampleRetrMethodNode
        sampleReadCtx).2.2).retrievalMethodCtx.uriIsSet = false
    ∧ ((xmlSecKeyDataRetrievalMethodXmlRead sampleExt sampleEmptyKey sampleRetrMethodNode
        sampleReadCtx).2.2).retrievalMethodCtx.executed = false
    ∧ ((xmlSecKeyDataRetrievalMethodXmlRead sampleExt sampleEmptyKey sampleRetrMethodNode
        sampleReadCtx).2.2).curRetrievalMethodLevel = 1 := by
  refine ⟨rfl, by decide, rfl, rfl, rfl, rfl⟩

/-- C3 amended: in read mode and under the level bound, when the `Type`
attribute is absent or does not resolve to a handler, the RetrievalMethod
handler fails if `RETRMETHOD_STOP_ON_UNKNOWN_HREF` is set, and otherwise
returns success immediately with only the recursion counter incremented:
it never sets the URI, never executes the transform pipeline, and
dispatches nothing — the element is silently ignored. -/
theorem retrievalMethod_unknown_type (ext : Externals) (key : Key) (node : Node)
    (ctx : KeyInfoCtx) (hm : ctx.mode = KeyInfoMode.read)
    (hlevel : ctx.curRetrievalMethodLevel < ctx.maxRetrievalMethodLevel)
    (hunres : ∀ t, xmlGetProp node xmlSecAttrType = some t →
      dispatchFindByHref ext.globalIds ctx.enabledKeyData t
        xmlSecKeyDataUsageRetrievalMethodNode = none) :
    ((ctx.flags &&& xmlSecKeyInfoFlagsRetrMethodStopOnUnknownHref ≠ 0) →
      xmlSecKeyDataRetrievalMethodXmlRead ext key node ctx =
        (-1, key, { ctx with curRetrievalMethodLevel := ctx.curRetrievalMethodLevel + 1 }))
    ∧ ((ctx.flags &&& xmlSecKeyInfoFlagsRetrMethodStopOnUnknownHref = 0) →
      xmlSecKeyDataRetrievalMethodXmlRead ext key node ctx =
        (0, key, { ctx with curRetrievalMethodLevel := ctx.curRetrievalMethodLevel + 1 })) := by
  have hge : ¬ (ctx.curRetrievalMethodLevel ≥ ctx.maxRetrievalMethodLevel) :=
    not_le.mpr hlevel
  constructor
  · intro hflag
    have hflag' : ((ctx.flags &&& xmlSecKeyInfoFlagsRetrMethodStopOnUnknownHref) != 0)
        = true := by simpa [bne_iff_ne] using hflag
    unfold xmlSecKeyDataRetrievalMethodXmlRead retrievalMethodExpectedDataId
    cases hT : xmlGetProp node xmlSecAttrType with
    | none => simp [hm, hge, hT, hflag']
    | some t => simp [hm, hge, hT, hunres t hT, hflag']
  · intro hflag
    unfold xmlSecKeyDataRetrievalMethodXmlRead retrievalMethodExpectedDataId
    cases hT : xmlGetProp node xmlSecAttrType with
    | none => simp [hm, hge, hT, hflag]
    | some t => simp [hm, hge, hT, hunres t hT, hflag]

/-- The read context with `RETRMETHOD_STOP_ON_UNKNOWN_HREF` set. -/
def sampleRetrStopCtx : KeyInfoCtx :=
  { sampleReadCtx with flags := xmlSecKeyInfoFlagsRetrMethodStopOnUnknownHref }

/-- Witness for the amended C3 at concrete inputs: an absent `Type` fails
with the flag set and is silently ignored with it clear. -/
theorem retrievalMethod_unknown_type_witness :
    xmlSecKeyDataRetrievalMethodXmlRead sampleExt sampleEmptyKey sampleRetrMethodNode
      sampleRetrStopCtx =
      (-1, sampleEmptyKey, { sampleRetrStopCtx with
        curRetrievalMethodLevel := sampleRetrStopCtx.curRetrievalMethodLevel + 1 })
    ∧ xmlSecKeyDataRetrievalMethodXmlRead sampleExt sampleEmptyKey sampleRetrMethodNode
      sampleReadCtx =
      (0, sampleEmptyKey, { sampleReadCtx with
        curRetrievalMethodLevel := sampleReadCtx.curRetrievalMethodLevel + 1 }) :=
  ⟨(retrievalMethod_unknown_type sampleExt sampleEmptyKey sampleRetrMethodNode
      sampleRetrStopCtx rfl (by decide)
      (fun _ h => Option.noConfusion h)).1 (by decide),
   (retrievalMethod_unknown_type sampleExt sampleEmptyKey sampleRetrMethodNode
      sampleReadCtx rfl (by decide)
      (fun _ h => Option.noConfusion h)).2 (by decide)⟩

/-- The dispatched handler oracles leave `curRetrievalMethodLevel` alone
(handlers other than RetrievalMethod itself never touch it). -/
def OraclesPreserveRetrievalLevel (ext : Externals) : Prop :=
  (∀ d k n c, ((ext.xmlRead d k n c).2.2).curRetrievalMethodLevel
    = c.curRetrievalMethodLevel)
  ∧ (∀ d k b c, ((ext.binRead d k b c).2.2).curRetrievalMethodLevel
    = c.curRetrievalMethodLevel)

/-- The dispatched handler oracles leave `curKeyInfoReferenceLevel` alone. -/
def OraclesPreserveReferenceLevel (ext : Externals) : Prop :=
  ∀ d k n c, ((ext.xmlRead d k n c).2.2).curKeyInfoReferenceLevel
    = c.curKeyInfoReferenceLevel

/-- The binary-read oracle leaves `curEncryptedKeyLevel` alone. -/
def OraclesPreserveEncLevel (ext : Externals) : Prop :=
  ∀ d k b c, ((ext.binRead d k b c).2.2).curEncryptedKeyLevel
    = c.curEncryptedKeyLevel

/-- Shared helper: the RetrievalMethod XML-result step does not move the
retrieval counter when the handler oracle does not. -/
theorem retrReadXmlResult_preserves_level (ext : Externals)
    (hp : OraclesPreserveRetrievalLevel ext) (typeId : Option KeyDataKlass)
    (key : Key) (buffer : List Nat) (ctx : KeyInfoCtx) :
    ((xmlSecKeyDataRetrievalMethodReadXmlResult ext typeId key buffer
      ctx).2.2).curRetrievalMethodLevel = ctx.curRetrievalMethodLevel := by
  unfold xmlSecKeyDataRetrievalMethodReadXmlResult
  dsimp only
  split
  · rfl
  · split
    · split
      · rfl
      · rfl
    · split
      · rfl
      · split
        · exact hp.1 _ _ _ _
        · exact hp.1 _ _ _ _

/-- Shared helper: the read loop does not move the reference counter when
the handler oracle does not. -/
theorem readLoop_preserves_reference_level (ext : Externals)
    (hp : OraclesPreserveReferenceLevel ext) :
    ∀ (l : List Node) (key : Key) (ctx : KeyInfoCtx),
      ((xmlSecKeyInfoNodeReadLoop ext l key ctx).2.2).curKeyInfoReferenceLevel
        = ctx.curKeyInfoReferenceLevel := by
  intro l
  induction l with
  | nil => intro key ctx; rfl
  | cons cur rest ih =>
    intro key ctx
    unfold xmlSecKeyInfoNodeReadLoop
    dsimp only
    split
    · exact ih key ctx
    · split
      · split
        · split
          · exact hp _ _ _ _
          · rw [ih _ _]
            exact hp _ _ _ _
        · split
          · rfl
          · exact ih key ctx
      · rfl

/-- Shared helper: the KeyInfoReference XML-result step (a recursive
`xmlSecKeyInfoNodeRead`) does not move the reference counter when the
handler oracle does not. -/
theorem refReadXmlResult_preserves_level (ext : Externals)
    (hp : OraclesPreserveReferenceLevel ext) (key : Key) (buffer : List Nat)
    (ctx : KeyInfoCtx) :
    ((xmlSecKeyDataKeyInfoReferenceReadXmlResult ext key buffer
      ctx).2.2).curKeyInfoReferenceLevel = ctx.curKeyInfoReferenceLevel := by
  unfold xmlSecKeyDataKeyInfoReferenceReadXmlResult xmlSecKeyInfoNodeRead
  dsimp only
  split
  · rfl
  · split
    · rfl
    · split <;> (try split) <;>
        first
          | rfl
          | exact readLoop_preserves_reference_level ext hp _ key ctx

/-- Shared helper: the retrieval counter after `retrievalMethodXmlReadTail`
is the entry value minus one exactly on success and the entry value on
every error, when the oracles do not move it. -/
theorem retrievalMethodXmlReadTail_level (ext : Externals)
    (hp : OraclesPreserveRetrievalLevel ext) (dataId : KeyDataKlass) (key : Key)
    (uri : Option String) (remaining : List Node) (ctx : KeyInfoCtx) :
    ((retrievalMethodXmlReadTail ext dataId key uri remaining
      ctx).2.2).curRetrievalMethodLevel =
      (if (retrievalMethodXmlReadTail ext dataId key uri remaining ctx).1 = 0
        then ctx.curRetrievalMethodLevel - 1
        else ctx.curRetrievalMethodLevel) := by
  unfold retrievalMethodXmlReadTail
  dsimp only
  split
  · simp
  · split
    · simp
    · split
      · split
        · simp [retrReadXmlResult_preserves_level ext hp]
        · simp [retrReadXmlResult_preserves_level ext hp]
      · split
        · simp [hp.2 _ _ _ _]
        · simp [hp.2 _ _ _ _]

/-- Counterexample to C2 as stated, at concrete inputs: the EncryptedKey
handler, failing on a failed decryption with
`ENCKEY_DONT_STOP_ON_FAILED_DECRYPTION` set, returns an error with
`curEncryptedKeyLevel` back at its entry value 0 (the decrement is not
reserved for success), and the RetrievalMethod handler's lax unknown-`Type`
path returns success with `curRetrievalMethodLevel` still incremented —
against the claim's "every error return leaves the counter incremented, and
every success return leaves it restored". -/
theorem recursionCounters_counterexample :
    sampleEncStopCtx.curEncryptedKeyLevel = 0
    ∧ (xmlSecKeyDataEncryptedKeyXmlRead sampleExt sampleEmptyKey sampleEncKeyNode
        sampleEncStopCtx).1 = -1
    ∧ ((xmlSecKeyDataEncryptedKeyXmlRead sampleExt sampleEmptyKey sampleEncKeyNode
        sampleEncStopCtx).2.2).curEncryptedKeyLevel = 0
    ∧ sampleReadCtx.curRetrievalMethodLevel = 0
    ∧ (xmlSecKeyDataRetrievalMethodXmlRead sampleExt sampleEmptyKey sampleRetrMethodNode
        sampleReadCtx).1 = 0
    ∧ ((xmlSecKeyDataRetrievalMethodXmlRead sampleExt sampleEmptyKey sampleRetrMethodNode
        sampleReadCtx).2.2).curRetrievalMethodLevel = 1 :=
  ⟨rfl, rfl, rfl, rfl, rfl, rfl⟩

/-- C2 amended: every bounding handler fails on entry leaving the context
unchanged when `cur_* ≥ max_*`.  Past that check, RetrievalMethod and
KeyInfoReference increment the counter and decrement it only on their fully
successful exit (handler oracles assumed not to move the counter): an error
return leaves it incremented, RetrievalMethod's lax unknown-`Type` success
also leaves it incremented, and only a success with a resolved `Type`
(always, for KeyInfoReference) restores it.  EncryptedKey, DerivedKey and
AgreementMethod instead bracket just the engine call with the increment and
decrement, so every return past the entry check — error or success —
restores the counter to its entry value. -/
theorem recursionCounters_amended (ext : Externals) :
    (∀ (key : Key) (node : Node) (ctx : KeyInfoCtx),
      ctx.curRetrievalMethodLevel ≥ ctx.maxRetrievalMethodLevel →
      xmlSecKeyDataRetrievalMethodXmlRead ext key node ctx = (-1, key, ctx))
    ∧ (∀ (key : Key) (node : Node) (ctx : KeyInfoCtx),
      ctx.curKeyInfoReferenceLevel ≥ ctx.maxKeyInfoReferenceLevel →
      xmlSecKeyDataKeyInfoReferenceXmlRead ext key node ctx = (-1, key, ctx))
    ∧ (∀ (key : Key) (node : Node) (ctx : KeyInfoCtx),
      ctx.curEncryptedKeyLevel ≥ ctx.maxEncryptedKeyLevel →
      xmlSecKeyDataEncryptedKeyXmlRead ext key node ctx = (-1, key, ctx))
    ∧ (∀ (key : Key) (node : Node) (ctx : KeyInfoCtx),
      ctx.curEncryptedKeyLevel ≥ ctx.maxEncryptedKeyLevel →
      xmlSecKeyDataDerivedKeyXmlRead ext key node ctx = (-1, key, ctx))
    ∧ (∀ (key : Key) (node : Node) (ctx : KeyInfoCtx),
      ctx.curEncryptedKeyLevel ≥ ctx.maxEncryptedKeyLevel →
      xmlSecKeyDataAgreementMethodXmlRead ext key node ctx = (-1, key, ctx))
    ∧ (∀ (key : Key) (node : Node) (ctx : KeyInfoCtx),
      ctx.mode = KeyInfoMode.read →
      ctx.curRetrievalMethodLevel < ctx.maxRetrievalMethodLevel →
      OraclesPreserveRetrievalLevel ext →
      ((xmlSecKeyDataRetrievalMethodXmlRead ext key node
          ctx).2.2).curRetrievalMethodLevel =
        (if (xmlSecKeyDataRetrievalMethodXmlRead ext key node ctx).1 = 0
            ∧ (retrievalMethodExpectedDataId ext node ctx).isSome = true
          then ctx.curRetrievalMethodLevel
          else ctx.curRetrievalMethodLevel + 1))
    ∧ (∀ (key : Key) (node : Node) (ctx : KeyInfoCtx),
      ctx.mode = KeyInfoMode.read →
      ctx.curKeyInfoReferenceLevel < ctx.maxKeyInfoReferenceLevel →
      OraclesPreserveReferenceLevel ext →
      ((xmlSecKeyDataKeyInfoReferenceXmlRead ext key node
          ctx).2.2).curKeyInfoReferenceLevel =
        (if (xmlSecKeyDataKeyInfoReferenceXmlRead ext key node ctx).1 = 0
          then ctx.curKeyInfoReferenceLevel
          else ctx.curKeyInfoReferenceLevel + 1))
    ∧ (∀ (key : Key) (node : Node) (ctx : KeyInfoCtx),
      ctx.mode = KeyInfoMode.read →
      ctx.curEncryptedKeyLevel < ctx.maxEncryptedKeyLevel →
      OraclesPreserveEncLevel ext →
      ((xmlSecKeyDataEncryptedKeyXmlRead ext key node ctx).2.2).curEncryptedKeyLevel
        = ctx.curEncryptedKeyLevel)
    ∧ (∀ (key : Key) (node : Node) (ctx : KeyInfoCtx),
      ctx.mode = KeyInfoMode.read →
      ctx.curEncryptedKeyLevel < ctx.maxEncryptedKeyLevel →
      ((xmlSecKeyDataDerivedKeyXmlRead ext key node ctx).2.2).curEncryptedKeyLevel
        = ctx.curEncryptedKeyLevel)
    ∧ (∀ (key : Key) (node : Node) (ctx : KeyInfoCtx),
      ctx.mode = KeyInfoMode.read →
      ctx.curEncryptedKeyLevel < ctx.maxEncryptedKeyLevel →
      ((xmlSecKeyDataAgreementMethodXmlRead ext key node ctx).2.2).curEncryptedKeyLevel
        = ctx.curEncryptedKeyLevel) := by
  refine ⟨?_, ?_, ?_, ?_, ?_, ?_, ?_, ?_, ?_, ?_⟩
  · intro key node ctx hge
    unfold xmlSecKeyDataRetrievalMethodXmlRead
    by_cases hm : ctx.mode ≠ KeyInfoMode.read
    · simp [hm]
    · simp [hm, hge]
  · intro key node ctx hge
    unfold xmlSecKeyDataKeyInfoReferenceXmlRead
    by_cases hm : ctx.mode ≠ KeyInfoMode.read
    · simp [hm]
    · simp [hm, hge]
  · intro key node ctx hge
    unfold xmlSecKeyDataEncryptedKeyXmlRead
    by_cases hm : ctx.mode ≠ KeyInfoMode.read
    · simp [hm]
    · simp [hm, hge]
  · intro key node ctx hge
    unfold xmlSecKeyDataDerivedKeyXmlRead
    by_cases hm : ctx.mode ≠ KeyInfoMode.read
    · simp [hm]
    · simp [hm, hge]
  · intro key node ctx hge
    unfold xmlSecKeyDataAgreementMethodXmlRead
    by_cases hm : ctx.mode ≠ KeyInfoMode.read
    · simp [hm]
    · simp [hm, hge]
  · intro key node ctx hm hlt hp
    have hge : ¬ (ctx.curRetrievalMethodLevel ≥ ctx.maxRetrievalMethodLevel) :=
      not_le.mpr hlt
    unfold xmlSecKeyDataRetrievalMethodXmlRead retrievalMethodExpectedDataId
    dsimp only
    cases hT : xmlGetProp node xmlSecAttrType with
    | none =>
      simp only [hm, ne_eq, not_true_eq_false, if_false, hge]
      split <;> simp
    | some t =>
      cases hD : dispatchFindByHref ext.globalIds ctx.enabledKeyData t
          xmlSecKeyDataUsageRetrievalMethodNode with
      | none =>
        simp only [hm, ne_eq, not_true_eq_false, if_false, hge, hD]
        split <;> simp
      | some dataId =>
        simp only [hm, ne_eq, not_true_eq_false, if_false, hge, hD]
        split
        · simp
        · cases hch : xmlSecGetNextElementNode node.children with
          | nil =>
            rw [retrievalMethodXmlReadTail_level ext hp]
            split <;> rename_i h0 <;> simp [h0]
          | cons cur0 rest0 =>
            by_cases hcn : xmlSecCheckNodeName cur0 xmlSecNodeTransforms xmlSecDSigNs = true
            · by_cases hrt : ext.readTransformsOk cur0 = true
              · simp only [hcn, hrt, if_true]
                rw [retrievalMethodXmlReadTail_level ext hp]
                split <;> rename_i h0 <;> simp [h0]
              · simp [hcn, hrt]
            · simp only [hcn, Bool.false_eq_true, if_false]
              rw [retrievalMethodXmlReadTail_level ext hp]
              split <;> rename_i h0 <;> simp [h0]
  · intro key node ctx hm hlt hp
    have hge : ¬ (ctx.curKeyInfoReferenceLevel ≥ ctx.maxKeyInfoReferenceLevel) :=
      not_le.mpr hlt
    unfold xmlSecKeyDataKeyInfoReferenceXmlRead
    dsimp only
    simp only [hm, ne_eq, not_true_eq_false, if_false, hge]
    split
    · simp
    · split
      · simp
      · split
        · simp
        · split
          · simp
          · split
            · rw [refReadXmlResult_preserves_level ext hp]
              simp
            · rw [refReadXmlResult_preserves_level ext hp]
              simp
  · intro key node ctx hm hlt hp
    have hge : ¬ (ctx.curEncryptedKeyLevel ≥ ctx.maxEncryptedKeyLevel) :=
      not_le.mpr hlt
    unfold xmlSecKeyDataEncryptedKeyXmlRead
    dsimp only
    simp only [hm, ne_eq, not_true_eq_false, if_false, hge]
    cases he : ctx.encCtx with
    | none =>
      simp only [keyInfoCtxEnsureEncCtx, xmlSecKeyInfoCtxCreateEncCtx, he]
      split
      · split <;> simp
      · split <;> (rw [hp _ _ _ _]; simp)
    | some e =>
      simp only [keyInfoCtxEnsureEncCtx, xmlSecEncCtxReset, he]
      split
      · split <;> simp
      · split <;> (rw [hp _ _ _ _]; simp)
  · intro key node ctx hm hlt
    have hge : ¬ (ctx.curEncryptedKeyLevel ≥ ctx.maxEncryptedKeyLevel) :=
      not_le.mpr hlt
    unfold xmlSecKeyDataDerivedKeyXmlRead
    dsimp only
    simp only [hm, ne_eq, not_true_eq_false, if_false, hge]
    cases he : ctx.encCtx with
    | none =>
      simp only [keyInfoCtxEnsureEncCtx, xmlSecKeyInfoCtxCreateEncCtx, he]
      split
      · split <;> simp
      · split <;> simp
    | some e =>
      simp only [keyInfoCtxEnsureEncCtx, xmlSecEncCtxReset, he]
      split
      · split <;> simp
      · split <;> simp
  · intro key node ctx hm hlt
    have hge : ¬ (ctx.curEncryptedKeyLevel ≥ ctx.maxEncryptedKeyLevel) :=
      not_le.mpr hlt
    unfold xmlSecKeyDataAgreementMethodXmlRead
    dsimp only
    simp only [hm, ne_eq, not_true_eq_false, if_false, hge]
    cases he : ctx.encCtx with
    | none =>
      simp only [keyInfoCtxEnsureEncCtx, xmlSecKeyInfoCtxCreateEncCtx, he]
      split
      · split <;> simp
      · split <;> simp
    | some e =>
      simp only [keyInfoCtxEnsureEncCtx, xmlSecEncCtxReset, he]
      split
      · split <;> simp
      · split <;> simp

/-- A context whose three recursion counters sit at their bounds. -/
def sampleMaxedCtx : KeyInfoCtx :=
  { sampleReadCtx with
    curRetrievalMethodLevel := 1
    curKeyInfoReferenceLevel := 1
    curEncryptedKeyLevel := 1 }

/-- Witness for the amended C2 at concrete inputs: a maxed counter makes
RetrievalMethod fail with the context untouched, and the post-entry counter
characterizations hold for all five handlers on the sample inputs. -/
theorem recursionCounters_amended_witness :
    xmlSecKeyDataRetrievalMethodXmlRead sampleExt sampleEmptyKey sampleRetrMethodNode
      sampleMaxedCtx = (-1, sampleEmptyKey, sampleMaxedCtx)
    ∧ ((xmlSecKeyDataRetrievalMethodXmlRead sampleExt sampleEmptyKey sampleRetrMethodNode
        sampleReadCtx).2.2).curRetrievalMethodLevel =
      (if (xmlSecKeyDataRetrievalMethodXmlRead sampleExt sampleEmptyKey sampleRetrMethodNode
          sampleReadCtx).1 = 0
          ∧ (retrievalMethodExpectedDataId sampleExt sampleRetrMethodNode
            sampleReadCtx).isSome = true
        then sampleReadCtx.curRetrievalMethodLevel
        else sampleReadCtx.curRetrievalMethodLevel + 1)
    ∧ ((xmlSecKeyDataKeyInfoReferenceXmlRead sampleExt sampleEmptyKey sampleRetrMethodNode
        sampleReadCtx).2.2).curKeyInfoReferenceLevel =
      (if (xmlSecKeyDataKeyInfoReferenceXmlRead sampleExt sampleEmptyKey sampleRetrMethodNode
          sampleReadCtx).1 = 0
        then sampleReadCtx.curKeyInfoReferenceLevel
        else sampleReadCtx.curKeyInfoReferenceLevel + 1)
    ∧ ((xmlSecKeyDataEncryptedKeyXmlRead sampleExt sampleEmptyKey sampleEncKeyNode
        sampleReadCtx).2.2).curEncryptedKeyLevel = sampleReadCtx.curEncryptedKeyLevel
    ∧ ((xmlSecKeyDataDerivedKeyXmlRead sampleExt sampleEmptyKey sampleEncKeyNode
        sampleReadCtx).2.2).curEncryptedKeyLevel = sampleReadCtx.curEncryptedKeyLevel
    ∧ ((xmlSecKeyDataAgreementMethodXmlRead sampleExt sampleEmptyKey sampleEncKeyNode
        sampleReadCtx).2.2).curEncryptedKeyLevel = sampleReadCtx.curEncryptedKeyLevel :=
  ⟨(recursionCounters_amended sampleExt).1 sampleEmptyKey sampleRetrMethodNode sampleMaxedCtx
      (by decide),
   (recursionCounters_amended sampleExt).2.2.2.2.2.1 sampleEmptyKey sampleRetrMethodNode
      sampleReadCtx rfl (by decide) ⟨fun _ _ _ _ => rfl, fun _ _ _ _ => rfl⟩,
   (recursionCounters_amended sampleExt).2.2.2.2.2.2.1 sampleEmptyKey sampleRetrMethodNode
      sampleReadCtx rfl (by decide) (fun _ _ _ _ => rfl),
   (recursionCounters_amended sampleExt).2.2.2.2.2.2.2.1 sampleEmptyKey sampleEncKeyNode
      sampleReadCtx rfl (by decide) (fun _ _ _ _ => rfl),
   (recursionCounters_amended sampleExt).2.2.2.2.2.2.2.2.1 sampleEmptyKey sampleEncKeyNode
      sampleReadCtx rfl (by decide),
   (recursionCounters_amended sampleExt).2.2.2.2.2.2.2.2.2 sampleEmptyKey sampleEncKeyNode
      sampleReadCtx rfl (by decide)⟩

end XmlSec
